import Mathlib

set_option maxRecDepth 100000

/-!
# go-platon Request Signing & Validation Engine — verification development

A shallow embedding, in Lean 4, of the signing and validation core of the
`stremovskyy/go-platon` payment-gateway client:

* the canonical-string builders and per-operation MD5 signature recipes
  (`generateCardPanSignature`, `generateCardTokenSignature`,
  `generateTransIDSignature`, ... in `platon`),
* the inbound callback verifier (`WebhookForm.ExpectedSign` / `VerifySign`),
* the per-kind field validator (`validateByHashType`) and the split-rule
  validator (`validateSplitRules`, `parseOrderAmountMinorUnits`),
* the request builder methods with their nil-receiver guards, and
* the minor-unit amount formatting used by `WithOrderAmountMinorUnits`.

Go strings are modelled as Lean `String`; Go `nil` pointers as `Option`;
Go's fallible functions as `Except String`.  Go `int` (64-bit) arithmetic
is modelled as `Int` with explicit two's-complement wrapping where overflow
is reachable.  MD5 is implemented from the RFC 1321 specification on byte
lists so that every digest in this file is computed inside Lean.
-/

/-- One 32-bit machine word: reduce a natural number modulo `2^32`. -/
def w32 (n : Nat) : Nat := n % 4294967296

/-- Left-rotation of a 32-bit word by `s` bits (`0 < s < 32`). -/
def rotl32 (x s : Nat) : Nat := w32 (x <<< s) ||| (x >>> (32 - s))

/-- Bitwise complement of a 32-bit word. -/
def not32 (x : Nat) : Nat := x ^^^ 4294967295

/-- The 64 MD5 sine-derived additive constants (RFC 1321). -/
def mdK : List Nat :=
  [3614090360, 3905402710, 606105819, 3250441966,
   4118548399, 1200080426, 2821735955, 4249261313,
   1770035416, 2336552879, 4294925233, 2304563134,
   1804603682, 4254626195, 2792965006, 1236535329,
   4129170786, 3225465664, 643717713, 3921069994,
   3593408605, 38016083, 3634488961, 3889429448,
   568446438, 3275163606, 4107603335, 1163531501,
   2850285829, 4243563512, 1735328473, 2368359562,
   4294588738, 2272392833, 1839030562, 4259657740,
   2763975236, 1272893353, 4139469664, 3200236656,
   681279174, 3936430074, 3572445317, 76029189,
   3654602809, 3873151461, 530742520, 3299628645,
   4096336452, 1126891415, 2878612391, 4237533241,
   1700485571, 2399980690, 4293915773, 2240044497,
   1873313359, 4264355552, 2734768916, 1309151649,
   4149444226, 3174756917, 718787259, 3951481745]

/-- The 64 MD5 per-round left-rotation amounts (RFC 1321). -/
def mdS : List Nat :=
  [7, 12, 17, 22, 7, 12, 17, 22, 7, 12, 17, 22, 7, 12, 17, 22,
   5, 9, 14, 20, 5, 9, 14, 20, 5, 9, 14, 20, 5, 9, 14, 20,
   4, 11, 16, 23, 4, 11, 16, 23, 4, 11, 16, 23, 4, 11, 16, 23,
   6, 10, 15, 21, 6, 10, 15, 21, 6, 10, 15, 21, 6, 10, 15, 21]

/-- One MD5 operation: state `(a, b, c, d)`, message block `X`, step index `i`. -/
def md5Step (X : List Nat) (st : Nat × Nat × Nat × Nat) (i : Nat) :
    Nat × Nat × Nat × Nat :=
  let a := st.1
  let b := st.2.1
  let c := st.2.2.1
  let d := st.2.2.2
  let f :=
    if i < 16 then (b &&& c) ||| (not32 b &&& d)
    else if i < 32 then (d &&& b) ||| (not32 d &&& c)
    else if i < 48 then b ^^^ c ^^^ d
    else c ^^^ (b ||| not32 d)
  let g :=
    if i < 16 then i
    else if i < 32 then (5 * i + 1) % 16
    else if i < 48 then (3 * i + 5) % 16
    else (7 * i) % 16
  let tmp := w32 (a + f + mdK.getD i 0 + X.getD g 0)
  (d, w32 (b + rotl32 tmp (mdS.getD i 0)), b, c)

/-- Process one 16-word block, updating the running MD5 state. -/
def md5Block (st : Nat × Nat × Nat × Nat) (X : List Nat) :
    Nat × Nat × Nat × Nat :=
  let r := (List.range 64).foldl (md5Step X) st
  (w32 (st.1 + r.1), w32 (st.2.1 + r.2.1),
   w32 (st.2.2.1 + r.2.2.1), w32 (st.2.2.2 + r.2.2.2))

/-- Group a byte list into little-endian 32-bit words (groups of four bytes). -/
def leWords : List Nat → List Nat
  | b0 :: b1 :: b2 :: b3 :: rest =>
      (b0 + 256 * b1 + 65536 * b2 + 16777216 * b3) :: leWords rest
  | _ => []

/-- Group a word list into 16-word message blocks. -/
def blocks16 : List Nat → List (List Nat)
  | w0 :: w1 :: w2 :: w3 :: w4 :: w5 :: w6 :: w7 ::
    w8 :: w9 :: w10 :: w11 :: w12 :: w13 :: w14 :: w15 :: rest =>
      [w0, w1, w2, w3, w4, w5, w6, w7,
       w8, w9, w10, w11, w12, w13, w14, w15] :: blocks16 rest
  | _ => []

/-- The eight little-endian bytes of a 64-bit quantity. -/
def le8 (n : Nat) : List Nat :=
  [n % 256, n / 256 % 256, n / 65536 % 256, n / 16777216 % 256,
   n / 4294967296 % 256, n / 1099511627776 % 256,
   n / 281474976710656 % 256, n / 72057594037927936 % 256]

/-- The four little-endian bytes of a 32-bit word. -/
def le4 (n : Nat) : List Nat :=
  [n % 256, n / 256 % 256, n / 65536 % 256, n / 16777216 % 256]

/-- MD5 padding: append `0x80`, zero bytes to 56 mod 64, then the bit length. -/
def md5Pad (msg : List Nat) : List Nat :=
  msg ++ 128 :: List.replicate ((119 - msg.length % 64) % 64) 0
      ++ le8 (msg.length * 8 % 18446744073709551616)

/-- MD5 digest of a byte list, as the usual 16 output bytes. -/
def md5Bytes (msg : List Nat) : List Nat :=
  let st := (blocks16 (leWords (md5Pad msg))).foldl md5Block
    (1732584193, 4023233417, 2562383102, 271733878)
  le4 st.1 ++ le4 st.2.1 ++ le4 st.2.2.1 ++ le4 st.2.2.2

/-- Lower-case hexadecimal digit for a value below 16. -/
def hexDigit (n : Nat) : Char :=
  if n < 10 then Char.ofNat (48 + n) else Char.ofNat (87 + n)

/-- Lower-case hex rendering of a byte list (two digits per byte). -/
def bytesToHex (bs : List Nat) : String :=
  ⟨bs.foldr (fun b acc => hexDigit (b / 16 % 16) :: hexDigit (b % 16) :: acc) []⟩

/-- UTF-8 encoding of one character, as in Go's `[]byte(string)`. -/
def utf8EncodeChar (c : Char) : List Nat :=
  let n := c.toNat
  if n < 128 then [n]
  else if n < 2048 then [192 + n / 64, 128 + n % 64]
  else if n < 65536 then [224 + n / 4096, 128 + n / 64 % 64, 128 + n % 64]
  else [240 + n / 262144, 128 + n / 4096 % 64, 128 + n / 64 % 64, 128 + n % 64]

/-- UTF-8 bytes of a string, as in Go's `[]byte(s)`. -/
def utf8Bytes (s : String) : List Nat :=
  s.data.foldr (fun c acc => utf8EncodeChar c ++ acc) []

/-- Hex-encoded MD5 digest of a string's UTF-8 bytes: Go's
`hex.EncodeToString(md5.Sum([]byte(s)))`. -/
def goMd5Hex (s : String) : String := bytesToHex (md5Bytes (utf8Bytes s))

/-- Go's `reverseString` (webhook_form_test.go): character (rune) reversal. -/
def reverseString (s : String) : String := ⟨s.data.reverse⟩

/-- Upper-casing of one character.  Models Go's `strings.ToUpper` on the
ASCII range (every string signed in this repository is ASCII). -/
def goUpperChar (c : Char) : Char :=
  if 97 ≤ c.toNat ∧ c.toNat ≤ 122 then Char.ofNat (c.toNat - 32) else c

/-- Models Go's `strings.ToUpper` (simple case mapping; ASCII range). -/
def goToUpper (s : String) : String := ⟨s.data.map goUpperChar⟩

/-- Lower-casing of one character, for `strings.EqualFold` (ASCII range). -/
def goFoldChar (c : Char) : Char :=
  if 65 ≤ c.toNat ∧ c.toNat ≤ 90 then Char.ofNat (c.toNat + 32) else c

/-- Models Go's `strings.EqualFold`: case-insensitive equality (ASCII fold). -/
def goEqualFold (s t : String) : Bool :=
  s.data.map goFoldChar == t.data.map goFoldChar

/-- Whitespace recognised by Go's `strings.TrimSpace` (ASCII space class). -/
def isGoSpace (c : Char) : Bool :=
  c = ' ' ∨ c = '\t' ∨ c = '\n' ∨ c = '\r' ∨ c.toNat = 11 ∨ c.toNat = 12

/-- Models Go's `strings.TrimSpace`. -/
def goTrimSpace (s : String) : String :=
  ⟨((s.data.dropWhile isGoSpace).reverse.dropWhile isGoSpace).reverse⟩

/-- Models Go's `strings.ReplaceAll(s, " ", "")`: drop every space character. -/
def removeSpaces (s : String) : String :=
  ⟨s.data.filter (fun c => c ≠ ' ')⟩

example : goMd5Hex "SECRET12312345678" = "15f549d19f26ce89022396a649c4ac9f" := by
  decide

/-!
## Inbound callback verifier (`platon/webhook_form.go`)

`WebhookForm` is the decoded callback payload.  Go's zero value for a
`string` field is `""`, which the structure defaults reproduce.  A Go
`*WebhookForm` receiver is modelled as `Option WebhookForm` so that the
nil-receiver guards are part of the functions.
-/

/-- The Platon callback payload (`WebhookForm` in `webhook_form.go`). -/
structure WebhookForm where
  ID : String := ""
  Order : String := ""
  Status : String := ""
  Card : String := ""
  Description : String := ""
  Amount : String := ""
  Currency : String := ""
  Name : String := ""
  Phone : String := ""
  Email : String := ""
  Date : String := ""
  IP : String := ""
  Sign : String := ""
  RCID : String := ""
  RCToken : String := ""
  IssuingBank : String := ""
  Ext1 : String := ""
  Ext2 : String := ""
  Ext3 : String := ""
  Ext4 : String := ""
  Ext5 : String := ""
  Ext6 : String := ""
  Ext7 : String := ""
  Ext8 : String := ""
  Ext9 : String := ""
  Ext10 : String := ""
  CardholderEmail : String := ""
  Brand : String := ""
  Terminal : String := ""
  deriving DecidableEq, Repr

/-- First six plus last four characters of a string (helper for stating
what the card-source functions actually produce). -/
def charFirst6Last4 (s : String) : String :=
  ⟨s.data.take 6 ++ s.data.drop (s.data.length - 4)⟩

/-- Go's `webhookCardSignSource` (webhook_form.go:186): trim whitespace,
remove space characters, require at least ten units, return the first six
plus last four.  Go measures and slices UTF-8 bytes; this model uses
characters, which agrees on ASCII card values (all values in this
development). -/
def webhookCardSignSource (card : String) : Except String String :=
  let normalized := removeSpaces (goTrimSpace card)
  if normalized.length < 10 then
    .error "card value is too short to build signature"
  else
    .ok (charFirst6Last4 normalized)

/-- The digit-string card fragment as the specification words it: strip all
non-digit characters, then first six plus last four digits, failing when
fewer than ten digits remain.  Stated from the spec for comparison with
`webhookCardSignSource`; it is NOT the code's behaviour. -/
def specFirst6Last4 (card : String) : Option String :=
  let digits := card.data.filter Char.isDigit
  if digits.length < 10 then none
  else some ⟨digits.take 6 ++ digits.drop (digits.length - 4)⟩

/-- The canonical inbound-callback digest for a chosen e-mail, secret,
order, card fragment and status (the body of `ExpectedSign` after its
guards). -/
def webhookDigest (email secret order card status : String) : String :=
  goMd5Hex (goToUpper
    (reverseString email ++ secret ++ order ++ reverseString card ++
      reverseString status))

/-- Go's `(*WebhookForm).ExpectedSign` (webhook_form.go:128). -/
def expectedSign (f : Option WebhookForm) (secret payerEmailOverride : String) :
    Except String String :=
  match f with
  | none => .error "webhook form is nil"
  | some f =>
    let secret := goTrimSpace secret
    if secret = "" then .error "secret is required"
    else
      let order := goTrimSpace f.Order
      if order = "" then .error "order is required"
      else
        let status := goTrimSpace f.Status
        if status = "" then .error "status is required"
        else if f.Card = "" then .error "card is required"
        else
          match webhookCardSignSource f.Card with
          | .error e => .error e
          | .ok card =>
            let payerEmail := goTrimSpace payerEmailOverride
            let payerEmail := if payerEmail = "" then f.Email else payerEmail
            .ok (webhookDigest payerEmail secret order card status)

/-- Go's `(*WebhookForm).VerifySign` (webhook_form.go:170). -/
def verifySign (f : Option WebhookForm) (secret payerEmailOverride : String) :
    Except String Bool :=
  match f with
  | none => .error "webhook form is nil"
  | some form =>
    if form.Sign = "" then .error "sign is required"
    else
      match expectedSign (some form) secret payerEmailOverride with
      | .error e => .error e
      | .ok expected => .ok (goEqualFold form.Sign expected)

deriving instance DecidableEq for Except

/-!
## Outbound request model (`platon` package)

The `Request` structure and all signing and validation functions below are
translated from the `platon` package sources.  Go `*string` fields are
`Option String` (Go's zero value for a pointer is `nil`, hence `none`);
plain `string` fields default to `""`.  `SplitRules` is Go's
`map[string]string`, modelled as an association list whose keys are unique
(a Go map cannot hold duplicate keys).  `HashType` and `ActionCode` are Go
string types, modelled as `String` so that the `default:` arm of the
signing switch (an unrecognized hash type) is representable.
-/

/-- Merchant credentials (`Auth`): key plus signing secret. -/
structure Auth where
  Key : String := ""
  Secret : String := ""
  deriving DecidableEq, Repr

def HashTypeVerification : String := "verification"

def HashTypeCardPayment : String := "card_payment"

def HashTypeCardTokenPayment : String := "card_token_payment"

def HashTypeApplePay : String := "apple_pay"

def HashTypeGooglePay : String := "google_pay"

def HashTypeRecurring : String := "recurring"

def HashTypeGetTransStatus : String := "get_trans_status"

def HashTypeGetTransStatusByOrder : String := "get_trans_status_by_order"

def HashTypeCapture : String := "capture"

def HashTypeCreditVoid : String := "creditvoid"

def HashTypeCredit2Card : String := "credit2card"

def HashTypeCredit2CardToken : String := "credit2card_token"

def HashTypeGetSubmerchant : String := "get_submerchant"

def ActionCodeSALE : String := "SALE"

def ActionCodeGetTransStatus : String := "GET_TRANS_STATUS"

def ActionCodeGetTransStatusByOrder : String := "GET_TRANS_STATUS_BY_ORDER"

def ActionCodeAPPLEPAY : String := "APPLEPAY"

def ActionCodeGOOGLEPAY : String := "GOOGLEPAY"

def ActionCodeCAPTURE : String := "CAPTURE"

def ActionCodeCREDITVOID : String := "CREDITVOID"

def ActionCodeCREDIT2CARD : String := "CREDIT2CARD"

def ActionCodeGetSubmerchant : String := "GET_SUBMERCHANT"

/-- `VerifyNoAmount` from enums.go: the reserved zero-amount literal. -/
def VerifyNoAmount : String := "0.40"

/-- The outbound payment request (`Request` in the `platon` package).
`CardHashPart` is the internal `json:"-"` helper set by
`WithCardHashPart` in requets_constructor.go. -/
structure Request where
  Action : String := ""
  ClientKey : String := ""
  Hash : String := ""
  ChannelId : String := ""
  PayerIp : Option String := none
  TermUrl3ds : Option String := none
  OrderID : Option String := none
  OrderAmount : String := ""
  OrderCurrency : String := ""
  SubmerchantID : Option String := none
  OrderDescription : Option String := none
  PaymentToken : Option String := none
  PayerEmail : Option String := none
  PayerPhone : Option String := none
  PayerFirstName : Option String := none
  PayerLastName : Option String := none
  PayerAddress : Option String := none
  PayerCountry : Option String := none
  PayerState : Option String := none
  PayerCity : Option String := none
  PayerZip : Option String := none
  CustomerWallet : Option String := none
  CardNumber : Option String := none
  CardExpMonth : Option String := none
  CardExpYear : Option String := none
  CardCvv2 : Option String := none
  CardToken : Option String := none
  AuthFlag : Option String := none
  RecurringFirstTransID : Option String := none
  TransId : Option String := none
  Amount : String := ""
  Immediately : Option String := none
  ReqToken : Option String := none
  RecurringInit : Option String := none
  Async : Option String := none
  Ext1 : Option String := none
  Ext2 : Option String := none
  Ext3 : Option String := none
  Ext4 : Option String := none
  Ext5 : Option String := none
  Ext6 : Option String := none
  Ext7 : Option String := none
  Ext8 : Option String := none
  Ext9 : Option String := none
  Ext10 : Option String := none
  SplitRules : List (String × String) := []
  HashEmail : Option String := none
  CardHashPart : Option String := none
  Auth : Option Auth := none
  HashType : String := ""
  deriving DecidableEq, Repr

/-!
### Signature generators (webhook_form_test.go, platon package)

Each generator mirrors the guard order of its Go source.  Go card-number
slicing is byte-based; the model is character-based, which coincides on
ASCII card values.
-/

/-- Go's `generateCardPanSignature`:
`md5(upper(strrev(email) + secret + strrev(first6+last4)))`. -/
def generateCardPanSignature (r : Request) : Except String String :=
  match r.PayerEmail with
  | none => .error "payer_email is required for signature generation"
  | some email =>
    match r.Auth with
    | none => .error "Auth secret is required for signature generation"
    | some auth =>
      if auth.Secret = "" then
        .error "Auth secret is required for signature generation"
      else
        match r.CardNumber with
        | none => .error "card_number is required for signature generation"
        | some cardNumber =>
          if cardNumber.length < 10 then .error "card_number is too short"
          else
            .ok (goMd5Hex (goToUpper
              (reverseString email ++ auth.Secret ++
                reverseString (charFirst6Last4 cardNumber))))

/-- Go's `generateCardTokenSignature`:
`md5(upper(strrev(email) + secret + strrev(card_token)))`. -/
def generateCardTokenSignature (r : Request) : Except String String :=
  match r.PayerEmail with
  | none => .error "payer_email is required for signature generation"
  | some email =>
    match r.Auth with
    | none => .error "Auth secret is required for signature generation"
    | some auth =>
      if auth.Secret = "" then
        .error "Auth secret is required for signature generation"
      else
        match r.CardToken with
        | none => .error "card_token is required for signature generation"
        | some tok =>
          if tok = "" then .error "card_token is required for signature generation"
          else
            .ok (goMd5Hex (goToUpper
              (reverseString email ++ auth.Secret ++ reverseString tok)))

/-- Go's `generatePaymentTokenSignature` (Apple Pay / Google Pay). -/
def generatePaymentTokenSignature (r : Request) : Except String String :=
  match r.PayerEmail with
  | none => .error "payer_email is required for signature generation"
  | some email =>
    match r.Auth with
    | none => .error "Auth secret is required for signature generation"
    | some auth =>
      if auth.Secret = "" then
        .error "Auth secret is required for signature generation"
      else
        match r.PaymentToken with
        | none => .error "payment_token is required for signature generation"
        | some tok =>
          if tok = "" then .error "payment_token is required for signature generation"
          else
            .ok (goMd5Hex (goToUpper
              (reverseString email ++ auth.Secret ++ reverseString tok)))

/-- Go's `generateRecurringSignature`: delegates to the card-token recipe. -/
def generateRecurringSignature (r : Request) : Except String String :=
  generateCardTokenSignature r

/-- Go's `generateTransIDSignature` (GET_TRANS_STATUS / CAPTURE /
CREDITVOID): `md5(upper(strrev(email) + secret + trans_id))`; the e-mail
is `HashEmail` when set, else `PayerEmail`, else empty; `trans_id` is NOT
reversed and the card value does not participate. -/
def generateTransIDSignature (r : Request) : Except String String :=
  match r.Auth with
  | none => .error "Auth secret is required for signature generation"
  | some auth =>
    if auth.Secret = "" then
      .error "Auth secret is required for signature generation"
    else
      match r.TransId with
      | none => .error "trans_id is required for signature generation"
      | some transId =>
        if transId = "" then .error "trans_id is required for signature generation"
        else
          let email :=
            match r.HashEmail with
            | some e => e
            | none =>
              match r.PayerEmail with
              | some e => e
              | none => ""
          .ok (goMd5Hex (goToUpper
            (reverseString email ++ auth.Secret ++ transId)))

/-- Go's `generateGetTransStatusByOrderSignature`:
`md5(upper(order_id + secret))`, neither reversed. -/
def generateGetTransStatusByOrderSignature (r : Request) : Except String String :=
  match r.Auth with
  | none => .error "Auth secret is required for signature generation"
  | some auth =>
    if auth.Secret = "" then
      .error "Auth secret is required for signature generation"
    else
      match r.OrderID with
      | none => .error "order_id is required for signature generation"
      | some orderId =>
        if orderId = "" then .error "order_id is required for signature generation"
        else .ok (goMd5Hex (goToUpper (orderId ++ auth.Secret)))

/-- Go's `generateGetSubmerchantSignature`:
`md5(upper(secret + submerchant_id))`, neither reversed. -/
def generateGetSubmerchantSignature (r : Request) : Except String String :=
  match r.Auth with
  | none => .error "Auth secret is required for signature generation"
  | some auth =>
    if auth.Secret = "" then
      .error "Auth secret is required for signature generation"
    else
      match r.SubmerchantID with
      | none => .error "submerchant_id is required for signature generation"
      | some sid =>
        if sid = "" then .error "submerchant_id is required for signature generation"
        else .ok (goMd5Hex (goToUpper (auth.Secret ++ sid)))

/-- Go's `generateCredit2CardSignature` (payout by PAN):
`md5(upper(secret + strrev(first6+last4)))`. -/
def generateCredit2CardSignature (r : Request) : Except String String :=
  match r.Auth with
  | none => .error "Auth secret is required for signature generation"
  | some auth =>
    if auth.Secret = "" then
      .error "Auth secret is required for signature generation"
    else
      match r.CardNumber with
      | none => .error "card_number is required for signature generation"
      | some cardNumber =>
        if cardNumber = "" then
          .error "card_number is required for signature generation"
        else if cardNumber.length < 10 then .error "card_number is too short"
        else
          .ok (goMd5Hex (goToUpper
            (auth.Secret ++ reverseString (charFirst6Last4 cardNumber))))

/-- Go's `generateCredit2CardTokenSignature` (payout by token):
`md5(upper(secret + strrev(card_token)))`. -/
def generateCredit2CardTokenSignature (r : Request) : Except String String :=
  match r.Auth with
  | none => .error "Auth secret is required for signature generation"
  | some auth =>
    if auth.Secret = "" then
      .error "Auth secret is required for signature generation"
    else
      match r.CardToken with
      | none => .error "card_token is required for signature generation"
      | some tok =>
        if tok = "" then .error "card_token is required for signature generation"
        else
          .ok (goMd5Hex (goToUpper (auth.Secret ++ reverseString tok)))

/-- The signing switch at the top of `SignAndPrepare`: dispatch on the
request's hash type, with the `default:` arm rejecting unknown kinds. -/
def signatureFor (r : Request) : Except String String :=
  if r.HashType = HashTypeVerification then generateCardPanSignature r
  else if r.HashType = HashTypeCardPayment then generateCardPanSignature r
  else if r.HashType = HashTypeCardTokenPayment then generateCardTokenSignature r
  else if r.HashType = HashTypeApplePay ∨ r.HashType = HashTypeGooglePay then
    generatePaymentTokenSignature r
  else if r.HashType = HashTypeRecurring then generateRecurringSignature r
  else if r.HashType = HashTypeGetTransStatus ∨ r.HashType = HashTypeCapture ∨
      r.HashType = HashTypeCreditVoid then generateTransIDSignature r
  else if r.HashType = HashTypeGetTransStatusByOrder then
    generateGetTransStatusByOrderSignature r
  else if r.HashType = HashTypeGetSubmerchant then generateGetSubmerchantSignature r
  else if r.HashType = HashTypeCredit2Card then generateCredit2CardSignature r
  else if r.HashType = HashTypeCredit2CardToken then
    generateCredit2CardTokenSignature r
  else .error ("unknown hash type: " ++ r.HashType)

/-!
## Amount wire format

`fmt.Sprintf("%.2f", float64(amount)/100)` goes through IEEE-754 binary64.
The pipeline is modelled exactly with integer arithmetic: conversion of an
integer to the nearest double (ties to even), correctly rounded division
by 100 (ties to even), and fixed two-decimal formatting of the exact
binary value (ties to even, as in Go's strconv decimal rounding).  A
non-negative double is a dyadic pair `(m, e)` denoting `m * 2^e`.

Parsing (`parseOrderAmountMinorUnits`) and the split-rule sums use Go
`int` (64-bit) arithmetic, modelled as `Int` with explicit
two's-complement wrapping.
-/

/-- Fuel-driven binary length (the fuel is consumed one halving at a
time, so `fuel = n` always suffices). -/
def bitlenFuel : Nat → Nat → Nat
  | 0, _ => 0
  | fuel + 1, n => if n = 0 then 0 else bitlenFuel fuel (n / 2) + 1

/-- Number of binary digits of `n` (`0` for `0`); `bitlen n - 1` is
`floor (log2 n)` for positive `n`. -/
def bitlen (n : Nat) : Nat := bitlenFuel n n

/-- Round `n / 2^k` to the nearest integer, ties to even (`k ≥ 1`). -/
def roundShiftEven (n k : Nat) : Nat :=
  let q := n >>> k
  let r := n % (1 <<< k)
  let half := 1 <<< (k - 1)
  if half < r then q + 1
  else if r < half then q
  else if q % 2 = 1 then q + 1 else q

/-- `float64(n)` for a non-negative integer: round to 53 significant bits,
nearest even.  Result is a dyadic pair `(m, e)` with value `m * 2^e`. -/
def natToF64 (n : Nat) : Nat × Int :=
  if n < 9007199254740992 then (n, 0)
  else
    let k := bitlen n - 53
    let m := roundShiftEven n k
    if m = 9007199254740992 then (4503599627370496, (k : Int) + 1)
    else (m, (k : Int))

/-- Correctly rounded (nearest even) binary64 division of the dyadic value
`m * 2^e` by 100. -/
def f64DivHundred (m : Nat) (e : Int) : Nat × Int :=
  if m = 0 then (0, 0)
  else
    let N := m <<< 64
    let Q := N / 100
    let R := N % 100
    let shift := bitlen Q - 53
    let p0 := Q >>> shift
    let rem := Q % (1 <<< shift)
    let half := 1 <<< (shift - 1)
    let up :=
      half < rem ∨ (rem = half ∧ R ≠ 0) ∨ (rem = half ∧ R = 0 ∧ p0 % 2 = 1)
    let p := if up then p0 + 1 else p0
    if p = 9007199254740992 then (4503599627370496, e - 64 + (shift : Int) + 1)
    else (p, e - 64 + (shift : Int))

/-- Fuel-driven most-significant-first decimal digits of `n` (empty for
zero; `fuel = n` always suffices). -/
def digitsAuxFuel : Nat → Nat → List Char
  | 0, _ => []
  | fuel + 1, n =>
    if n = 0 then []
    else digitsAuxFuel fuel (n / 10) ++ [Char.ofNat (48 + n % 10)]

/-- Decimal rendering of a natural number (executable by kernel
reduction, unlike `Nat.repr`). -/
def natToString (n : Nat) : String :=
  if n = 0 then "0" else ⟨digitsAuxFuel n n⟩

/-- Two-character zero-padded decimal rendering of `k < 100`. -/
def pad2 (k : Nat) : String :=
  if k < 10 then "0" ++ natToString k else natToString k

/-- `%.2f` of the non-negative dyadic value `m * 2^e`: round the exact
value to hundredths, ties to even, and print `units.cents`. -/
def f64FormatFixed2 (m : Nat) (e : Int) : String :=
  let cents :=
    if 0 ≤ e then m * 100 * 2 ^ e.toNat
    else
      let D := 2 ^ (-e).toNat
      let N := m * 100
      let c0 := N / D
      let r := N % D
      if D < 2 * r then c0 + 1
      else if 2 * r < D then c0
      else if c0 % 2 = 1 then c0 + 1 else c0
  natToString (cents / 100) ++ "." ++ pad2 (cents % 100)

/-- Go's `fmt.Sprintf("%.2f", float64(a)/100)` for a non-negative
minor-unit amount `a`, as used by `WithOrderAmountMinorUnits`,
`WithAmountMinorUnits` and `GetSplitRules`. -/
def goFormatMinor (a : Nat) : String :=
  let f := natToF64 a
  let q := f64DivHundred f.1 f.2
  f64FormatFixed2 q.1 q.2

/-- The exact two-decimal rendering of a minor-unit amount, as the
specification words the amount wire format (`amount/100` with exactly two
fractional digits). -/
def exactFormatMinor (a : Nat) : String :=
  natToString (a / 100) ++ "." ++ pad2 (a % 100)

/-- Two's-complement wrap into the Go `int` (64-bit) range. -/
def wrap64 (n : Int) : Int :=
  (n + 9223372036854775808) % 18446744073709551616 - 9223372036854775808

/-- Numeric value of a digit-character list (most significant first). -/
def digitsVal (ds : List Char) : Nat :=
  ds.foldl (fun acc c => 10 * acc + (c.toNat - 48)) 0

/-- Go's `strconv.Atoi`: optional sign, decimal digits, 64-bit range
check (out-of-range input is an error, which every caller treats as
failure). -/
def goAtoi (s : String) : Except String Int :=
  let neg := s.data.head? = some '-'
  let ds :=
    if s.data.head? = some '+' ∨ s.data.head? = some '-' then s.data.tail
    else s.data
  if ds = [] then .error "invalid syntax"
  else if ds.all Char.isDigit then
    let v : Int := if neg then -(digitsVal ds : Int) else (digitsVal ds : Int)
    if v < -9223372036854775808 ∨ 9223372036854775807 < v then
      .error "value out of range"
    else .ok v
  else .error "invalid syntax"

/-- Go's `strings.SplitN(s, ".", 2)`: the part before the first dot and,
when a dot exists, everything after it. -/
def splitN2Dot (s : String) : String × Option String :=
  let pre := s.data.takeWhile (fun c => c ≠ '.')
  if pre.length = s.data.length then (s, none)
  else (⟨pre⟩, some ⟨s.data.drop (pre.length + 1)⟩)

/-- Go's `parseOrderAmountMinorUnits`: split on the first dot, `Atoi` both
parts, return `major*100 + minor` in Go `int` arithmetic (which wraps). -/
def parseOrderAmountMinorUnits (amount : String) : Except String Int :=
  match splitN2Dot amount with
  | (_, none) => .error "invalid amount format"
  | (majorS, some minorS) =>
    match goAtoi majorS with
    | .error _ => .error "invalid major amount"
    | .ok major =>
      match goAtoi minorS with
      | .error _ => .error "invalid minor amount"
      | .ok minor => .ok (wrap64 (wrap64 (major * 100) + minor))

/-- The amount pattern `^[0-9]+\.[0-9]{2}$` (`orderAmountRe`). -/
def matchesAmountRe (s : String) : Bool :=
  match splitN2Dot s with
  | (_, none) => false
  | (majorS, some minorS) =>
    majorS.data ≠ [] ∧ majorS.data.all Char.isDigit ∧
      minorS.data.length = 2 ∧ minorS.data.all Char.isDigit

/-- Loop body of `validateSplitRules`: key non-blank, amount matches the
pattern, parses strictly positive; accumulate the (wrapping) sum. -/
def splitRulesSum (context : String) :
    List (String × String) → Int → Except String Int
  | [], acc => .ok acc
  | (submerchantID, amount) :: rest, acc =>
    if goTrimSpace submerchantID = "" then
      .error (context ++ ": split_rules key (submerchant_id) is required")
    else if ¬ matchesAmountRe amount then
      .error (context ++ ": split_rules amount must match the amount pattern")
    else
      match parseOrderAmountMinorUnits amount with
      | .error _ => .error (context ++ ": split_rules amount must be > 0")
      | .ok minorUnits =>
        if minorUnits ≤ 0 then
          .error (context ++ ": split_rules amount must be > 0")
        else splitRulesSum context rest (wrap64 (acc + minorUnits))

/-- Go's `validateSplitRules` (webhook_form_test.go:1257). -/
def validateSplitRules (rules : List (String × String)) (totalAmount : String)
    (context : String) : Except String Unit :=
  if rules.length = 0 then .ok ()
  else if totalAmount = "" then
    .error (context ++ ": amount is required when split_rules are provided")
  else
    match parseOrderAmountMinorUnits totalAmount with
    | .error _ => .error (context ++ ": invalid amount for split_rules")
    | .ok totalMinorUnits =>
      if totalMinorUnits ≤ 0 then
        .error (context ++ ": invalid amount for split_rules")
      else
        match splitRulesSum context rules 0 with
        | .error e => .error e
        | .ok splitMinorUnits =>
          if splitMinorUnits ≠ totalMinorUnits then
            .error (context ++ ": split rules total must equal amount")
          else .ok ()

/-- Loop of `(*Request).GetSplitRules` (request.go:372): per-rule checks,
running (wrapping) total with the early excess check, duplicate detection,
and the `%.2f` rendering of each allocation. -/
def getSplitRulesLoop (parentAmount : Int) :
    List (String × Int) → Int → List (String × String) →
    Except String (Int × List (String × String))
  | [], acc, out => .ok (acc, out)
  | (ident, amt) :: rest, acc, out =>
    let identification := goTrimSpace ident
    if identification = "" then
      .error "split_rules: submerchant identification is required"
    else if amt ≤ 0 then
      .error "split_rules: amount (minor units) must be > 0"
    else
      let acc := wrap64 (acc + amt)
      if parentAmount < acc then
        .error "split rules total exceeds amount"
      else if (out.lookup identification).isSome then
        .error "split_rules: duplicate submerchant identification"
      else
        getSplitRulesLoop parentAmount rest acc
          (out ++ [(identification, goFormatMinor amt.toNat)])

/-- Go's `(*Request).GetSplitRules` (request.go:372) restricted to its
inputs: the parent amount in minor units and the ordered allocation list.
A nil request or absent payment data returns the empty result. -/
def getSplitRules (parentAmount : Int) (rules : List (String × Int)) :
    Except String (List (String × String)) :=
  if rules.length = 0 then .ok []
  else if parentAmount ≤ 0 then
    .error "amount (minor units) must be > 0 when split rules are provided"
  else
    match getSplitRulesLoop parentAmount rules 0 [] with
    | .error e => .error e
    | .ok (totalMinorUnits, out) =>
      if totalMinorUnits ≠ parentAmount then
        .error "split rules total must equal amount"
      else .ok out

/-!
## Per-kind field validation (`validateByHashType`)

Go's `validateByHashType` both repairs (the two flag defaults) and checks;
it is modelled state-passing: the result pairs the `error` outcome with
the possibly-updated request.  Go length checks (`len(s)`) count UTF-8
bytes, modelled by `goLen`.
-/

/-- Go `len(s)`: the UTF-8 byte length of a string. -/
def goLen (s : String) : Nat := (utf8Bytes s).length

/-- The Go guard `p == nil || *p == ""`. -/
def blankOpt (v : Option String) : Bool :=
  match v with
  | none => true
  | some s => s = ""

/-- The Go guard `p == nil || strings.TrimSpace(*p) == ""`. -/
def blankOptTrim (v : Option String) : Bool :=
  match v with
  | none => true
  | some s => goTrimSpace s = ""

/-- The `verification` arm of `validateByHashType` (checks only; the flag
defaults happen before these checks and are part of
`validateByHashTypeSt`). -/
def checkVerification (r : Request) : Except String Unit :=
  if r.Action ≠ ActionCodeSALE then .error "verification: action must be SALE"
  else if r.ChannelId ≠ "VERIFY_ZERO" then
    .error "verification: channel_id must be VERIFY_ZERO"
  else if r.OrderAmount ≠ VerifyNoAmount then
    .error "verification: order_amount must be 0.40"
  else if blankOpt r.OrderID then .error "verification: order_id is required"
  else if 32 < goLen (r.OrderID.getD "") then
    .error "verification: order_id must be <= 32 characters"
  else if r.OrderCurrency = "" then
    .error "verification: order_currency is required"
  else if blankOpt r.OrderDescription then
    .error "verification: order_description is required"
  else if 255 < goLen (r.OrderDescription.getD "") then
    .error "verification: order_description must be <= 255 characters"
  else if blankOpt r.PayerIp then .error "verification: payer_ip is required"
  else if blankOpt r.TermUrl3ds then
    .error "verification: term_url_3ds is required"
  else if 255 < goLen (r.TermUrl3ds.getD "") then
    .error "verification: term_url_3ds must be <= 255 characters"
  else if blankOpt r.PayerEmail then
    .error "verification: payer_email is required"
  else if blankOpt r.PayerPhone then
    .error "verification: payer_phone is required"
  else if blankOpt r.CardNumber then
    .error "verification: card_number is required"
  else if blankOpt r.CardExpMonth then
    .error "verification: card_exp_month is required"
  else if blankOpt r.CardExpYear then
    .error "verification: card_exp_year is required"
  else if blankOpt r.CardCvv2 then .error "verification: card_cvv2 is required"
  else if blankOpt r.ReqToken then .error "verification: req_token is required"
  else if r.ReqToken.getD "" ≠ "Y" then
    .error "verification: req_token must be Y"
  else if blankOpt r.RecurringInit then
    .error "verification: recurring_init is required"
  else if r.RecurringInit.getD "" ≠ "Y" then
    .error "verification: recurring_init must be Y"
  else .ok ()

/-- The `card_payment` arm of `validateByHashType` (checks only). -/
def checkCardPayment (r : Request) : Except String Unit :=
  if r.Action ≠ ActionCodeSALE then .error "card_payment: action must be SALE"
  else if blankOpt r.OrderID then .error "card_payment: order_id is required"
  else if 32 < goLen (r.OrderID.getD "") then
    .error "card_payment: order_id must be <= 32 characters"
  else if r.OrderAmount = "" then
    .error "card_payment: order_amount is required"
  else if ¬ matchesAmountRe r.OrderAmount then
    .error "card_payment: order_amount must match the amount pattern"
  else
    match parseOrderAmountMinorUnits r.OrderAmount with
    | .error _ => .error "card_payment: order_amount must be > 0"
    | .ok v =>
      if v ≤ 0 then .error "card_payment: order_amount must be > 0"
      else
        match validateSplitRules r.SplitRules r.OrderAmount "card_payment" with
        | .error e => .error e
        | .ok _ =>
          if r.OrderCurrency = "" then
            .error "card_payment: order_currency is required"
          else if blankOpt r.OrderDescription then
            .error "card_payment: order_description is required"
          else if 255 < goLen (r.OrderDescription.getD "") then
            .error "card_payment: order_description must be <= 255 characters"
          else if blankOpt r.PayerIp then
            .error "card_payment: payer_ip is required"
          else if blankOpt r.TermUrl3ds then
            .error "card_payment: term_url_3ds is required"
          else if 255 < goLen (r.TermUrl3ds.getD "") then
            .error "card_payment: term_url_3ds must be <= 255 characters"
          else if blankOpt r.PayerEmail then
            .error "card_payment: payer_email is required"
          else if blankOpt r.PayerPhone then
            .error "card_payment: payer_phone is required"
          else if blankOpt r.CardNumber then
            .error "card_payment: card_number is required"
          else if blankOpt r.CardExpMonth then
            .error "card_payment: card_exp_month is required"
          else if blankOpt r.CardExpYear then
            .error "card_payment: card_exp_year is required"
          else if blankOpt r.CardCvv2 then
            .error "card_payment: card_cvv2 is required"
          else if blankOpt r.ReqToken then
            .error "card_payment: req_token is required"
          else if blankOpt r.RecurringInit then
            .error "card_payment: recurring_init is required"
          else .ok ()

/-- The `card_token_payment` arm of `validateByHashType`. -/
def checkCardTokenPayment (r : Request) : Except String Unit :=
  if r.Action ≠ ActionCodeSALE then
    .error "card_token_payment: action must be SALE"
  else if blankOpt r.CardToken then
    .error "card_token_payment: card_token is required"
  else if blankOpt r.OrderID then
    .error "card_token_payment: order_id is required"
  else if 32 < goLen (r.OrderID.getD "") then
    .error "card_token_payment: order_id must be <= 32 characters"
  else if r.OrderAmount = "" then
    .error "card_token_payment: order_amount is required"
  else if ¬ matchesAmountRe r.OrderAmount then
    .error "card_token_payment: order_amount must match the amount pattern"
  else
    match parseOrderAmountMinorUnits r.OrderAmount with
    | .error _ => .error "card_token_payment: order_amount must be > 0"
    | .ok v =>
      if v ≤ 0 then .error "card_token_payment: order_amount must be > 0"
      else
        match validateSplitRules r.SplitRules r.OrderAmount "card_token_payment" with
        | .error e => .error e
        | .ok _ =>
          if r.OrderCurrency = "" then
            .error "card_token_payment: order_currency is required"
          else if blankOpt r.OrderDescription then
            .error "card_token_payment: order_description is required"
          else if 255 < goLen (r.OrderDescription.getD "") then
            .error "card_token_payment: order_description must be <= 255 characters"
          else if blankOpt r.PayerIp then
            .error "card_token_payment: payer_ip is required"
          else if blankOpt r.TermUrl3ds then
            .error "card_token_payment: term_url_3ds is required"
          else if 255 < goLen (r.TermUrl3ds.getD "") then
            .error "card_token_payment: term_url_3ds must be <= 255 characters"
          else if blankOpt r.PayerEmail then
            .error "card_token_payment: payer_email is required"
          else .ok ()

/-- The `apple_pay` arm of `validateByHashType`. -/
def checkApplePay (r : Request) : Except String Unit :=
  if r.Action ≠ ActionCodeAPPLEPAY then
    .error "apple_pay: action must be APPLEPAY"
  else if blankOpt r.PaymentToken then
    .error "apple_pay: payment_token is required"
  else if blankOpt r.OrderID then .error "apple_pay: order_id is required"
  else if 255 < goLen (r.OrderID.getD "") then
    .error "apple_pay: order_id must be <= 255 characters"
  else if r.OrderAmount = "" then .error "apple_pay: order_amount is required"
  else if ¬ matchesAmountRe r.OrderAmount then
    .error "apple_pay: order_amount must match the amount pattern"
  else
    match parseOrderAmountMinorUnits r.OrderAmount with
    | .error _ => .error "apple_pay: order_amount must be > 0"
    | .ok v =>
      if v ≤ 0 then .error "apple_pay: order_amount must be > 0"
      else
        match validateSplitRules r.SplitRules r.OrderAmount "apple_pay" with
        | .error e => .error e
        | .ok _ =>
          if r.OrderCurrency = "" then
            .error "apple_pay: order_currency is required"
          else if blankOpt r.OrderDescription then
            .error "apple_pay: order_description is required"
          else if 1024 < goLen (r.OrderDescription.getD "") then
            .error "apple_pay: order_description must be <= 1024 characters"
          else if blankOpt r.PayerIp then
            .error "apple_pay: payer_ip is required"
          else if blankOpt r.TermUrl3ds then
            .error "apple_pay: term_url_3ds is required"
          else if 1024 < goLen (r.TermUrl3ds.getD "") then
            .error "apple_pay: term_url_3ds must be <= 1024 characters"
          else if blankOpt r.PayerEmail then
            .error "apple_pay: payer_email is required"
          else if blankOpt r.PayerPhone then
            .error "apple_pay: payer_phone is required"
          else .ok ()

/-- The `google_pay` arm of `validateByHashType`. -/
def checkGooglePay (r : Request) : Except String Unit :=
  if r.Action ≠ ActionCodeGOOGLEPAY then
    .error "google_pay: action must be GOOGLEPAY"
  else if blankOpt r.PaymentToken then
    .error "google_pay: payment_token is required"
  else if blankOpt r.OrderID then .error "google_pay: order_id is required"
  else if 255 < goLen (r.OrderID.getD "") then
    .error "google_pay: order_id must be <= 255 characters"
  else if r.OrderAmount = "" then .error "google_pay: order_amount is required"
  else if ¬ matchesAmountRe r.OrderAmount then
    .error "google_pay: order_amount must match the amount pattern"
  else
    match parseOrderAmountMinorUnits r.OrderAmount with
    | .error _ => .error "google_pay: order_amount must be > 0"
    | .ok v =>
      if v ≤ 0 then .error "google_pay: order_amount must be > 0"
      else
        match validateSplitRules r.SplitRules r.OrderAmount "google_pay" with
        | .error e => .error e
        | .ok _ =>
          if r.OrderCurrency = "" then
            .error "google_pay: order_currency is required"
          else if blankOpt r.OrderDescription then
            .error "google_pay: order_description is required"
          else if 255 < goLen (r.OrderDescription.getD "") then
            .error "google_pay: order_description must be <= 255 characters"
          else if blankOpt r.PayerIp then
            .error "google_pay: payer_ip is required"
          else if blankOpt r.TermUrl3ds then
            .error "google_pay: term_url_3ds is required"
          else if 255 < goLen (r.TermUrl3ds.getD "") then
            .error "google_pay: term_url_3ds must be <= 255 characters"
          else if blankOpt r.PayerEmail then
            .error "google_pay: payer_email is required"
          else if blankOpt r.PayerPhone then
            .error "google_pay: payer_phone is required"
          else .ok ()

/-- The `recurring` arm of `validateByHashType`. -/
def checkRecurring (r : Request) : Except String Unit :=
  if r.Action ≠ ActionCodeSALE then .error "recurring: action must be SALE"
  else if blankOpt r.CardToken then .error "recurring: card_token is required"
  else if r.Ext3 = none ∨ r.Ext3.getD "" ≠ "recurring" then
    .error "recurring: ext3 must be recurring"
  else if blankOpt r.OrderID then .error "recurring: order_id is required"
  else if 32 < goLen (r.OrderID.getD "") then
    .error "recurring: order_id must be <= 32 characters"
  else if r.OrderAmount = "" then .error "recurring: order_amount is required"
  else if ¬ matchesAmountRe r.OrderAmount then
    .error "recurring: order_amount must match the amount pattern"
  else
    match parseOrderAmountMinorUnits r.OrderAmount with
    | .error _ => .error "recurring: order_amount must be > 0"
    | .ok v =>
      if v ≤ 0 then .error "recurring: order_amount must be > 0"
      else
        match validateSplitRules r.SplitRules r.OrderAmount "recurring" with
        | .error e => .error e
        | .ok _ =>
          if r.OrderCurrency = "" then
            .error "recurring: order_currency is required"
          else if blankOpt r.OrderDescription then
            .error "recurring: order_description is required"
          else if 255 < goLen (r.OrderDescription.getD "") then
            .error "recurring: order_description must be <= 255 characters"
          else if blankOpt r.PayerIp then
            .error "recurring: payer_ip is required"
          else if blankOpt r.TermUrl3ds then
            .error "recurring: term_url_3ds is required"
          else if 255 < goLen (r.TermUrl3ds.getD "") then
            .error "recurring: term_url_3ds must be <= 255 characters"
          else if blankOpt r.PayerEmail then
            .error "recurring: payer_email is required"
          else .ok ()

/-- The `get_trans_status` arm of `validateByHashType`. -/
def checkGetTransStatus (r : Request) : Except String Unit :=
  if r.Action ≠ ActionCodeGetTransStatus then
    .error "get_trans_status: action must be GET_TRANS_STATUS"
  else if blankOpt r.TransId then
    .error "get_trans_status: trans_id is required"
  else .ok ()

/-- The `get_trans_status_by_order` arm of `validateByHashType`. -/
def checkGetTransStatusByOrder (r : Request) : Except String Unit :=
  if r.Action ≠ ActionCodeGetTransStatusByOrder then
    .error "get_trans_status_by_order: action must be GET_TRANS_STATUS_BY_ORDER"
  else if blankOptTrim r.OrderID then
    .error "get_trans_status_by_order: order_id is required"
  else .ok ()

/-- The `capture` arm of `validateByHashType`. -/
def checkCapture (r : Request) : Except String Unit :=
  if r.Action ≠ ActionCodeCAPTURE then .error "capture: action must be CAPTURE"
  else if blankOpt r.TransId then .error "capture: trans_id is required"
  else if r.Amount = "" then .error "capture: amount is required"
  else if ¬ matchesAmountRe r.Amount then
    .error "capture: amount must match the amount pattern"
  else
    match parseOrderAmountMinorUnits r.Amount with
    | .error _ => .error "capture: amount must be > 0"
    | .ok v =>
      if v ≤ 0 then .error "capture: amount must be > 0"
      else
        match validateSplitRules r.SplitRules r.Amount "capture" with
        | .error e => .error e
        | .ok _ => .ok ()

/-- The `creditvoid` arm of `validateByHashType`. -/
def checkCreditVoid (r : Request) : Except String Unit :=
  if r.Action ≠ ActionCodeCREDITVOID then
    .error "creditvoid: action must be CREDITVOID"
  else if blankOpt r.TransId then .error "creditvoid: trans_id is required"
  else if r.Amount = "" then .error "creditvoid: amount is required"
  else if ¬ matchesAmountRe r.Amount then
    .error "creditvoid: amount must match the amount pattern"
  else
    match parseOrderAmountMinorUnits r.Amount with
    | .error _ => .error "creditvoid: amount must be > 0"
    | .ok v =>
      if v ≤ 0 then .error "creditvoid: amount must be > 0"
      else
        match validateSplitRules r.SplitRules r.Amount "creditvoid" with
        | .error e => .error e
        | .ok _ => .ok ()

/-- The `credit2card` arm of `validateByHashType`. -/
def checkCredit2Card (r : Request) : Except String Unit :=
  if r.Action ≠ ActionCodeCREDIT2CARD then
    .error "credit2card: action must be CREDIT2CARD"
  else if blankOpt r.CardNumber then
    .error "credit2card: card_number is required"
  else if blankOpt r.OrderID then .error "credit2card: order_id is required"
  else if r.Amount = "" then .error "credit2card: amount is required"
  else if ¬ matchesAmountRe r.Amount then
    .error "credit2card: amount must match the amount pattern"
  else
    match parseOrderAmountMinorUnits r.Amount with
    | .error _ => .error "credit2card: amount must be > 0"
    | .ok v =>
      if v ≤ 0 then .error "credit2card: amount must be > 0"
      else if r.OrderCurrency = "" then
        .error "credit2card: order_currency is required"
      else if blankOptTrim r.OrderDescription then
        .error "credit2card: order_description is required"
      else if blankOptTrim r.PayerFirstName then
        .error "credit2card: payer_first_name is required"
      else if blankOptTrim r.PayerLastName then
        .error "credit2card: payer_last_name is required"
      else if blankOptTrim r.PayerAddress then
        .error "credit2card: payer_address is required"
      else if blankOptTrim r.PayerCountry then
        .error "credit2card: payer_country is required"
      else if blankOptTrim r.PayerState then
        .error "credit2card: payer_state is required"
      else if blankOptTrim r.PayerCity then
        .error "credit2card: payer_city is required"
      else if blankOptTrim r.PayerZip then
        .error "credit2card: payer_zip is required"
      else if 0 < r.SplitRules.length then
        .error "credit2card: split_rules are not allowed"
      else .ok ()

/-- The `credit2card_token` arm of `validateByHashType`. -/
def checkCredit2CardToken (r : Request) : Except String Unit :=
  if r.Action ≠ ActionCodeCREDIT2CARD then
    .error "credit2card_token: action must be CREDIT2CARD"
  else if blankOpt r.CardToken then
    .error "credit2card_token: card_token is required"
  else if blankOpt r.OrderID then
    .error "credit2card_token: order_id is required"
  else if r.Amount = "" then .error "credit2card_token: amount is required"
  else if ¬ matchesAmountRe r.Amount then
    .error "credit2card_token: amount must match the amount pattern"
  else
    match parseOrderAmountMinorUnits r.Amount with
    | .error _ => .error "credit2card_token: amount must be > 0"
    | .ok v =>
      if v ≤ 0 then .error "credit2card_token: amount must be > 0"
      else if r.OrderCurrency = "" then
        .error "credit2card_token: order_currency is required"
      else if blankOptTrim r.OrderDescription then
        .error "credit2card_token: order_description is required"
      else if blankOptTrim r.PayerFirstName then
        .error "credit2card_token: payer_first_name is required"
      else if blankOptTrim r.PayerLastName then
        .error "credit2card_token: payer_last_name is required"
      else if blankOptTrim r.PayerAddress then
        .error "credit2card_token: payer_address is required"
      else if blankOptTrim r.PayerCountry then
        .error "credit2card_token: payer_country is required"
      else if blankOptTrim r.PayerState then
        .error "credit2card_token: payer_state is required"
      else if blankOptTrim r.PayerCity then
        .error "credit2card_token: payer_city is required"
      else if blankOptTrim r.PayerZip then
        .error "credit2card_token: payer_zip is required"
      else if 0 < r.SplitRules.length then
        .error "credit2card_token: split_rules are not allowed"
      else .ok ()

/-- The `get_submerchant` arm of `validateByHashType`. -/
def checkGetSubmerchant (r : Request) : Except String Unit :=
  if r.Action ≠ ActionCodeGetSubmerchant then
    .error "get_submerchant: action must be GET_SUBMERCHANT"
  else if blankOptTrim r.SubmerchantID then
    .error "get_submerchant: submerchant_id is required"
  else if 0 < r.SplitRules.length then
    .error "get_submerchant: split_rules are not allowed"
  else .ok ()

/-- Go's `(*Request).validateByHashType` (webhook_form_test.go:737),
state-passing: the `verification` and `card_payment` arms first fill the
two flag defaults (mutating the request), then every arm runs its own
checks; a hash type outside the switch is a no-op returning `nil`. -/
def validateByHashTypeSt (r : Request) : Except String Unit × Request :=
  if r.HashType = HashTypeVerification then
    let r := if r.ReqToken = none then { r with ReqToken := some "Y" } else r
    let r :=
      if r.RecurringInit = none then { r with RecurringInit := some "Y" } else r
    (checkVerification r, r)
  else if r.HashType = HashTypeCardPayment then
    let r := if r.ReqToken = none then { r with ReqToken := some "N" } else r
    let r :=
      if r.RecurringInit = none then { r with RecurringInit := some "N" } else r
    (checkCardPayment r, r)
  else if r.HashType = HashTypeCardTokenPayment then (checkCardTokenPayment r, r)
  else if r.HashType = HashTypeApplePay then (checkApplePay r, r)
  else if r.HashType = HashTypeGooglePay then (checkGooglePay r, r)
  else if r.HashType = HashTypeRecurring then (checkRecurring r, r)
  else if r.HashType = HashTypeGetTransStatus then (checkGetTransStatus r, r)
  else if r.HashType = HashTypeGetTransStatusByOrder then
    (checkGetTransStatusByOrder r, r)
  else if r.HashType = HashTypeCapture then (checkCapture r, r)
  else if r.HashType = HashTypeCreditVoid then (checkCreditVoid r, r)
  else if r.HashType = HashTypeCredit2Card then (checkCredit2Card r, r)
  else if r.HashType = HashTypeCredit2CardToken then (checkCredit2CardToken r, r)
  else if r.HashType = HashTypeGetSubmerchant then (checkGetSubmerchant r, r)
  else (.ok (), r)

/-- Go's `(*Request).SignAndPrepare` (webhook_form_test.go:324),
state-passing on the pointed-to request.  The final go-playground struct
validation is an external read-only library check, abstracted as the
boolean predicate `sv`; every other step is modelled from the source. -/
def signAndPrepareSt (sv : Request → Bool) (r : Option Request) :
    Except String Request × Option Request :=
  match r with
  | none => (.error "request is nil", none)
  | some r =>
    match signatureFor r with
    | .error e => (.error ("signature generation failed: " ++ e), some r)
    | .ok sign =>
      let r1 := { r with Hash := sign }
      match validateByHashTypeSt r1 with
      | (.error e, r2) => (.error e, some r2)
      | (.ok _, r2) =>
        if sv r2 then (.ok r2, some r2)
        else (.error "internal request validation failed", some r2)

/-!
## Request builders (`requets_constructor.go`)

Every builder starts with `if r == nil { return nil }`; the receiver is
therefore `Option Request` and each builder maps over it.  `NewRequest`
always allocates.  `WithVerifyAmount` takes a Go `float32`; a finite
float is exactly a signed dyadic rational, modelled by `GoFloat`.
-/

/-- A finite Go floating-point argument: the exact value `±m * 2^exp`. -/
structure GoFloat where
  neg : Bool := false
  m : Nat := 0
  exp : Int := 0
  deriving DecidableEq, Repr

/-- `fmt.Sprintf("%.2f", x)` for the finite float `x` (sign prepended to
the fixed two-decimal rendering of the magnitude). -/
def goFormatFixed2 (a : GoFloat) : String :=
  (if a.neg ∧ a.m ≠ 0 then "-" else "") ++ f64FormatFixed2 a.m a.exp

/-- `fmt.Sprintf("%.2f", float64(a)/100)` for a Go `int` amount `a`. -/
def goFormatMinorInt (a : Int) : String :=
  if a < 0 then "-" ++ goFormatMinor (-a).toNat else goFormatMinor a.toNat

def newRequest (action : String) : Option Request :=
  some { Action := action }

def withAuth (r : Option Request) (auth : Option Auth) : Option Request :=
  r.map fun r => { r with Auth := auth }

def withClientKey (r : Option Request) (clientKey : String) : Option Request :=
  r.map fun r => { r with ClientKey := clientKey }

def withReqToken (r : Option Request) (flag : Bool) : Option Request :=
  r.map fun r => { r with ReqToken := some (if flag then "Y" else "N") }

def withRecToken (r : Option Request) : Option Request :=
  r.map fun r => { r with ReqToken := some "Y" }

def withRecurringInitFlag (r : Option Request) (flag : Bool) : Option Request :=
  r.map fun r => { r with RecurringInit := some (if flag then "Y" else "N") }

def withRecurringInit (r : Option Request) : Option Request :=
  r.map fun r => { r with RecurringInit := some "Y" }

def withAsync (r : Option Request) (flag : Bool) : Option Request :=
  r.map fun r => { r with Async := some (if flag then "Y" else "N") }

def useAsync (r : Option Request) : Option Request :=
  r.map fun r => { r with Async := some "Y" }

def withChannelNoAmountVerification (r : Option Request) : Option Request :=
  r.map fun r => { r with ChannelId := "VERIFY_ZERO" }

def withPayerIP (r : Option Request) (ip : Option String) : Option Request :=
  r.map fun r =>
    match ip with
    | none => { r with PayerIp := some "127.0.0.1" }
    | some _ => { r with PayerIp := ip }

def withTermsURL (r : Option Request) (url : Option String) : Option Request :=
  r.map fun r => { r with TermUrl3ds := url }

def withCardNumber (r : Option Request) (pan : Option String) : Option Request :=
  r.map fun r => { r with CardNumber := pan }

def withCardToken (r : Option Request) (token : Option String) : Option Request :=
  r.map fun r => { r with CardToken := token }

def withCardExpMonth (r : Option Request) (month : Option String) : Option Request :=
  r.map fun r => { r with CardExpMonth := month }

def withCardExpYear (r : Option Request) (year : Option String) : Option Request :=
  r.map fun r => { r with CardExpYear := year }

def withCardCvv2 (r : Option Request) (cvv2 : Option String) : Option Request :=
  r.map fun r => { r with CardCvv2 := cvv2 }

def withPayerEmail (r : Option Request) (email : Option String) : Option Request :=
  r.map fun r => { r with PayerEmail := email }

def withPayerPhone (r : Option Request) (phone : Option String) : Option Request :=
  r.map fun r => { r with PayerPhone := phone }

def withPayerFirstName (r : Option Request) (firstName : Option String) :
    Option Request :=
  r.map fun r => { r with PayerFirstName := firstName }

def withPayerLastName (r : Option Request) (lastName : Option String) :
    Option Request :=
  r.map fun r => { r with PayerLastName := lastName }

def withApplePayData (r : Option Request) (data : Option String) : Option Request :=
  r.map fun r => { r with PaymentToken := data }

def withGooglePayToken (r : Option Request) (token : Option String) :
    Option Request :=
  r.map fun r => { r with PaymentToken := token }

def withPaymentToken (r : Option Request) (token : Option String) : Option Request :=
  r.map fun r => { r with PaymentToken := token }

def withHoldAuth (r : Option Request) : Option Request :=
  r.map fun r => { r with AuthFlag := some "Y" }

def withVerifyAmount (r : Option Request) (amount : GoFloat) : Option Request :=
  r.map fun r =>
    { r with OrderAmount :=
        if amount.neg ∨ amount.m = 0 then VerifyNoAmount
        else goFormatFixed2 amount }

def withOrderAmountMinorUnits (r : Option Request) (amount : Int) : Option Request :=
  r.map fun r => { r with OrderAmount := goFormatMinorInt amount }

def withOrderAmount (r : Option Request) (amount : String) : Option Request :=
  r.map fun r => { r with OrderAmount := amount }

def forCurrency (r : Option Request) (currency : String) : Option Request :=
  r.map fun r => { r with OrderCurrency := currency }

def withSubmerchantID (r : Option Request) (submerchantID : Option String) :
    Option Request :=
  r.map fun r => { r with SubmerchantID := submerchantID }

def withDescription (r : Option Request) (description : String) : Option Request :=
  r.map fun r => { r with OrderDescription := some description }

def withOrderID (r : Option Request) (orderID : Option String) : Option Request :=
  r.map fun r => { r with OrderID := orderID }

def withRecurringFirstTransID (r : Option Request) (transID : Option String) :
    Option Request :=
  r.map fun r => { r with RecurringFirstTransID := transID }

def withTransID (r : Option Request) (transID : Option String) : Option Request :=
  r.map fun r => { r with TransId := transID }

def withAmountMinorUnits (r : Option Request) (amount : Int) : Option Request :=
  r.map fun r => { r with Amount := goFormatMinorInt amount }

def withAmount (r : Option Request) (amount : String) : Option Request :=
  r.map fun r => { r with Amount := amount }

def withSplitRules (r : Option Request) (splitRules : List (String × String)) :
    Option Request :=
  r.map fun r =>
    if splitRules.length = 0 then { r with SplitRules := [] }
    else { r with SplitRules := splitRules }

def withImmediately (r : Option Request) (flag : Bool) : Option Request :=
  r.map fun r =>
    if flag then { r with Immediately := some "Y" }
    else { r with Immediately := none }

def withHashEmail (r : Option Request) (email : Option String) : Option Request :=
  r.map fun r => { r with HashEmail := email }

def withCardHashPart (r : Option Request) (cardHashPart : Option String) :
    Option Request :=
  r.map fun r => { r with CardHashPart := cardHashPart }

def withExt3 (r : Option Request) (value : Option String) : Option Request :=
  r.map fun r => { r with Ext3 := value }

def signForAction (r : Option Request) (t : String) : Option Request :=
  r.map fun r => { r with HashType := t }

/-!
## Transport serialization (`ToMap`)

Go's `ToMap` walks the struct by reflection: every exported field with a
json tag other than `-` contributes its tag and value unless the field is
zero (`""` for strings, `nil` for pointers, `nil`/empty for the map).
The model spells that walk out field by field in declaration order.
`HashEmail`, `CardHashPart`, `Auth` and `HashType` carry `json:"-"` and
never serialize.
-/

/-- A value in the transport map (`map[string]interface{}`). -/
inductive GoVal where
  | str (s : String)
  | rules (m : List (String × String))
  deriving DecidableEq, Repr

/-- Map entry for a plain string field: skipped when zero (`""`). -/
def strEntry (tag : String) (v : String) : List (String × GoVal) :=
  if v = "" then [] else [(tag, .str v)]

/-- Map entry for a pointer field: skipped when `nil`, dereferenced
otherwise (a pointer to `""` is not zero and is serialized). -/
def optEntry (tag : String) (v : Option String) : List (String × GoVal) :=
  match v with
  | none => []
  | some s => [(tag, .str s)]

/-- Go's `(*Request).ToMap` (webhook_form_test.go:688). -/
def toMap (r : Option Request) : List (String × GoVal) :=
  match r with
  | none => []
  | some r =>
    strEntry "action" r.Action ++ strEntry "client_key" r.ClientKey ++
    strEntry "hash" r.Hash ++ strEntry "channel_id" r.ChannelId ++
    optEntry "payer_ip" r.PayerIp ++ optEntry "term_url_3ds" r.TermUrl3ds ++
    optEntry "order_id" r.OrderID ++ strEntry "order_amount" r.OrderAmount ++
    strEntry "order_currency" r.OrderCurrency ++
    optEntry "submerchant_id" r.SubmerchantID ++
    optEntry "order_description" r.OrderDescription ++
    optEntry "payment_token" r.PaymentToken ++
    optEntry "payer_email" r.PayerEmail ++ optEntry "payer_phone" r.PayerPhone ++
    optEntry "payer_first_name" r.PayerFirstName ++
    optEntry "payer_last_name" r.PayerLastName ++
    optEntry "payer_address" r.PayerAddress ++
    optEntry "payer_country" r.PayerCountry ++
    optEntry "payer_state" r.PayerState ++ optEntry "payer_city" r.PayerCity ++
    optEntry "payer_zip" r.PayerZip ++
    optEntry "customer_wallet" r.CustomerWallet ++
    optEntry "card_number" r.CardNumber ++
    optEntry "card_exp_month" r.CardExpMonth ++
    optEntry "card_exp_year" r.CardExpYear ++
    optEntry "card_cvv2" r.CardCvv2 ++ optEntry "card_token" r.CardToken ++
    optEntry "auth" r.AuthFlag ++
    optEntry "recurring_first_trans_id" r.RecurringFirstTransID ++
    optEntry "trans_id" r.TransId ++ strEntry "amount" r.Amount ++
    optEntry "immediately" r.Immediately ++ optEntry "req_token" r.ReqToken ++
    optEntry "recurring_init" r.RecurringInit ++ optEntry "async" r.Async ++
    optEntry "ext1" r.Ext1 ++ optEntry "ext2" r.Ext2 ++
    optEntry "ext3" r.Ext3 ++ optEntry "ext4" r.Ext4 ++
    optEntry "ext5" r.Ext5 ++ optEntry "ext6" r.Ext6 ++
    optEntry "ext7" r.Ext7 ++ optEntry "ext8" r.Ext8 ++
    optEntry "ext9" r.Ext9 ++ optEntry "ext10" r.Ext10 ++
    (if r.SplitRules.length = 0 then []
     else [("split_rules", GoVal.rules r.SplitRules)])

/-!
## Concrete scenario inputs

Instances taken from the repository's own tests: the trans-id status
request, the card-token payment, the inbound callback of the recorded
webhook payload, and the requests used to exercise the failure paths.
-/

/-- Scenario 2 input: status-by-transaction request (the test also sets
the internal card-hash helper field, which the trans-id recipe ignores). -/
def c2req : Request :=
  { Action := "GET_TRANS_STATUS", ClientKey := "clientKey",
    TransId := some "632508054", PayerEmail := some "payer@example.com",
    CardHashPart := some "4111111111",
    Auth := some { Key := "k", Secret := "secret123" },
    HashType := "get_trans_status" }

/-- Scenario 1 input: card-token payment request. -/
def c3req : Request :=
  { Action := "SALE", ClientKey := "clientKey", CardToken := some "TOKEN123",
    OrderID := some "order-123", OrderAmount := "1.00", OrderCurrency := "UAH",
    OrderDescription := some "one-click", PayerIp := some "127.0.0.1",
    TermUrl3ds := some "https://example.com/3ds",
    PayerEmail := some "payer@example.com",
    PayerPhone := some "380631234567",
    Auth := some { Key := "k", Secret := "secret123" },
    HashType := "card_token_payment" }

/-- Scenario 5 input: the recorded webhook callback (its `email` field is
empty, the payer e-mail arrives as the caller override). -/
def c4form : WebhookForm :=
  { Order := "47097-87309-6110", Status := "SALE", Card := "411111****1111",
    Email := "" }

/-- A callback whose canonical e-mail is present (non-blank). -/
def c5form : WebhookForm :=
  { Order := "order-1", Status := "SALE", Card := "4111111111111111",
    Email := "canonical@example.com" }

/-- A trans-id signing request carrying both the canonical payer e-mail
and the explicit hash-email override. -/
def c5req : Request :=
  { Action := "GET_TRANS_STATUS", ClientKey := "clientKey",
    TransId := some "632508054", PayerEmail := some "payer@example.com",
    HashEmail := some "override@example.com",
    Auth := some { Key := "k", Secret := "secret123" },
    HashType := "get_trans_status" }

/-- A card-payment request whose signature inputs are valid but whose
order amount `"1000"` fails the two-decimal pattern (the repository's own
`TestSignAndPrepare_OrderAmountValidation` input). -/
def c7req : Request :=
  { Action := "SALE", ClientKey := "clientKey", OrderID := some "order-123",
    OrderAmount := "1000", OrderCurrency := "UAH",
    OrderDescription := some "payment", PayerIp := some "127.0.0.1",
    TermUrl3ds := some "https://example.com/3ds",
    CardNumber := some "4111111111111111", CardExpMonth := some "01",
    CardExpYear := some "2026", CardCvv2 := some "123",
    PayerEmail := some "payer@example.com", PayerPhone := some "380631234567",
    Auth := some { Key := "k", Secret := "secret123" },
    HashType := "card_payment" }

/-- A verification-kind request with both flags unset. -/
def c8req : Request := { HashType := "verification" }

/-!
## Claims
-/

/-- C1 counterexample: the value `"12345678-9"` keeps only nine digits
after stripping non-digits, so by the claim the computation must fail;
the code strips only spaces, sees ten units, and succeeds — returning a
fragment containing a non-digit. -/
theorem C1_counterexample :
    webhookCardSignSource "12345678-9" = Except.ok "12345678-9" ∧
      specFirst6Last4 "12345678-9" = none :=
  ⟨rfl, rfl⟩

/-- C1 (amended): in both first6+last4-bearing recipes the card fragment
is built from characters, not digits.  The inbound path strips only
space characters after trimming and succeeds exactly when at least ten
characters remain, returning the first six plus last four characters;
the outbound card-PAN path strips nothing and succeeds exactly when the
raw card value has at least ten characters. -/
theorem C1_card_fragment :
    (∀ card : String,
      (10 ≤ (removeSpaces (goTrimSpace card)).length →
        webhookCardSignSource card =
          .ok (charFirst6Last4 (removeSpaces (goTrimSpace card)))) ∧
      ((removeSpaces (goTrimSpace card)).length < 10 →
        webhookCardSignSource card =
          .error "card value is too short to build signature")) ∧
    (∀ (r : Request) (email : String) (auth : Auth) (pan : String),
      r.PayerEmail = some email → r.Auth = some auth → auth.Secret ≠ "" →
      r.CardNumber = some pan →
      (10 ≤ pan.length →
        generateCardPanSignature r =
          .ok (goMd5Hex (goToUpper (reverseString email ++ auth.Secret ++
            reverseString (charFirst6Last4 pan))))) ∧
      (pan.length < 10 →
        generateCardPanSignature r = .error "card_number is too short")) := by
  constructor
  · intro card
    constructor
    · intro h
      unfold webhookCardSignSource
      rw [if_neg (by omega)]
    · intro h
      unfold webhookCardSignSource
      rw [if_pos h]
  · intro r email auth pan he ha hs hc
    constructor
    · intro h
      simp [generateCardPanSignature, he, ha, hc, hs,
        show ¬ pan.length < 10 by omega]
    · intro h
      simp [generateCardPanSignature, he, ha, hc, hs, h]

/-- C1 witness: both branches of the amended statement applied to the
test card `4111111111111111`. -/
theorem C1_witness :
    webhookCardSignSource "4111111111111111" =
      .ok (charFirst6Last4 (removeSpaces (goTrimSpace "4111111111111111"))) ∧
    generateCardPanSignature c7req =
      .ok (goMd5Hex (goToUpper (reverseString "payer@example.com" ++
        "secret123" ++ reverseString (charFirst6Last4 "4111111111111111")))) :=
  ⟨(C1_card_fragment.1 "4111111111111111").1 (by decide),
   (C1_card_fragment.2 c7req "payer@example.com"
      { Key := "k", Secret := "secret123" } "4111111111111111"
      rfl rfl (by decide) rfl).1 (by decide)⟩

/-- C2 counterexample: on the Scenario 2 inputs the signing engine
produces `ef374c28b6398c097e0b3d6230deebd6`, not the claimed digest
`77a4785689636b4d3875ec7acf47d5e2`. -/
theorem C2_counterexample :
    generateTransIDSignature c2req = .ok "ef374c28b6398c097e0b3d6230deebd6" ∧
      "ef374c28b6398c097e0b3d6230deebd6" ≠ "77a4785689636b4d3875ec7acf47d5e2" :=
  ⟨rfl, by decide⟩

/-- C2 (amended): for the status-by-transaction request with email
`payer@example.com`, secret `secret123` and trans_id `632508054` the
engine produces `ef374c28b6398c097e0b3d6230deebd6`; the card value never
enters the trans-id digest (for any value of the card-hash helper field
the digest is unchanged), and the claimed digest `77a4…` is exactly what
appending the reversed card fragment `4111111111` would produce. -/
theorem C2_trans_id_digest :
    generateTransIDSignature c2req = .ok "ef374c28b6398c097e0b3d6230deebd6" ∧
    (∀ c : Option String,
      generateTransIDSignature { c2req with CardHashPart := c } =
        generateTransIDSignature c2req) ∧
    goMd5Hex (goToUpper (reverseString "payer@example.com" ++ "secret123" ++
        "632508054" ++ reverseString "4111111111")) =
      "77a4785689636b4d3875ec7acf47d5e2" :=
  ⟨rfl, fun _ => rfl, rfl⟩

/-- C2 witness: the digest-irrelevance conjunct applied to a concrete
card fragment. -/
theorem C2_witness :
    generateTransIDSignature { c2req with CardHashPart := some "4111111111" } =
      generateTransIDSignature c2req :=
  C2_trans_id_digest.2.1 (some "4111111111")

/-- C3: every card-token payment or recurring-by-token request with a
present payer e-mail, a non-empty secret and a non-empty card token is
signed `md5(upper(strrev(email) + secret + strrev(card_token)))`, and on
the Scenario 1 inputs the digest is `03838ac02c89b98621f95ec98a68aa14`. -/
theorem C3_card_token_recipe :
    (∀ (r : Request) (email : String) (auth : Auth) (tok : String),
      r.PayerEmail = some email → r.Auth = some auth → auth.Secret ≠ "" →
      r.CardToken = some tok → tok ≠ "" →
      generateCardTokenSignature r =
        .ok (goMd5Hex (goToUpper
          (reverseString email ++ auth.Secret ++ reverseString tok))) ∧
      generateRecurringSignature r = generateCardTokenSignature r) ∧
    generateCardTokenSignature c3req = .ok "03838ac02c89b98621f95ec98a68aa14" := by
  constructor
  · intro r email auth tok he ha hs ht htn
    refine ⟨?_, rfl⟩
    simp [generateCardTokenSignature, he, ha, ht, hs, htn]
  · rfl

/-- C3 witness: the recipe applied to the Scenario 1 request. -/
theorem C3_witness :
    generateCardTokenSignature c3req =
      .ok (goMd5Hex (goToUpper (reverseString "payer@example.com" ++
        "secret123" ++ reverseString "TOKEN123"))) :=
  ((C3_card_token_recipe.1 c3req "payer@example.com"
      { Key := "k", Secret := "secret123" } "TOKEN123"
      rfl rfl (by decide) rfl (by decide)).1)

/-- C4: on the Scenario 5 callback the recomputed digest is
`8c089577f40387dd2a0c5f91b1b703c8`, and verification of a supplied digest
returns `true` exactly when it equals that digest under case-insensitive
comparison. -/
theorem C4_callback_verification :
    expectedSign (some c4form) "SECRET" "payer@example.com" =
      .ok "8c089577f40387dd2a0c5f91b1b703c8" ∧
    ∀ s : String,
      verifySign (some { c4form with Sign := s }) "SECRET" "payer@example.com" =
          .ok true ↔
        goEqualFold s "8c089577f40387dd2a0c5f91b1b703c8" = true := by
  refine ⟨rfl, fun s => ?_⟩
  have hbase : expectedSign (some c4form) "SECRET" "payer@example.com" =
      .ok "8c089577f40387dd2a0c5f91b1b703c8" := rfl
  have hirrel : expectedSign (some { c4form with Sign := s }) "SECRET"
      "payer@example.com" =
      expectedSign (some c4form) "SECRET" "payer@example.com" := rfl
  have hexp := hirrel.trans hbase
  by_cases hs : s = ""
  · subst hs
    constructor
    · intro h
      exact absurd h (by decide)
    · intro h
      exact absurd h (by decide)
  · simp [verifySign, hs, hexp]

/-- C4 witness: the verification equivalence at the matching digest. -/
theorem C4_witness :
    verifySign (some { c4form with Sign := "8c089577f40387dd2a0c5f91b1b703c8" })
        "SECRET" "payer@example.com" = .ok true :=
  (C4_callback_verification.2 "8c089577f40387dd2a0c5f91b1b703c8").2 (by decide)

/-- C5 counterexample: with the canonical e-mail available (non-blank in
the callback; present as `payer_email` on the request), supplying an
override changes the digest — the override, not the canonical e-mail,
is what the code signs with. -/
theorem C5_counterexample :
    expectedSign (some c5form) "SECRET" "override@example.com" ≠
        expectedSign (some c5form) "SECRET" "" ∧
      generateTransIDSignature c5req ≠
        generateTransIDSignature { c5req with HashEmail := none } :=
  ⟨by decide, by decide⟩

/-- C5 (amended): in both e-mail-bearing digest computations the
caller-supplied override takes precedence whenever it is present (a
non-blank trimmed override for callback verification; a non-nil
`HashEmail` for trans-id signing), and the canonical e-mail is only the
fallback used when the override is absent. -/
theorem C5_email_priority :
    (∀ (f : WebhookForm) (secret override card : String),
      goTrimSpace secret ≠ "" → goTrimSpace f.Order ≠ "" →
      goTrimSpace f.Status ≠ "" → f.Card ≠ "" →
      webhookCardSignSource f.Card = .ok card →
      (goTrimSpace override ≠ "" →
        expectedSign (some f) secret override =
          .ok (webhookDigest (goTrimSpace override) (goTrimSpace secret)
            (goTrimSpace f.Order) card (goTrimSpace f.Status))) ∧
      (goTrimSpace override = "" →
        expectedSign (some f) secret override =
          .ok (webhookDigest f.Email (goTrimSpace secret)
            (goTrimSpace f.Order) card (goTrimSpace f.Status)))) ∧
    (∀ (r : Request) (auth : Auth) (transId : String),
      r.Auth = some auth → auth.Secret ≠ "" →
      r.TransId = some transId → transId ≠ "" →
      (∀ e, r.HashEmail = some e →
        generateTransIDSignature r =
          .ok (goMd5Hex (goToUpper
            (reverseString e ++ auth.Secret ++ transId)))) ∧
      (∀ e, r.HashEmail = none → r.PayerEmail = some e →
        generateTransIDSignature r =
          .ok (goMd5Hex (goToUpper
            (reverseString e ++ auth.Secret ++ transId)))) ∧
      (r.HashEmail = none → r.PayerEmail = none →
        generateTransIDSignature r =
          .ok (goMd5Hex (goToUpper
            (reverseString "" ++ auth.Secret ++ transId))))) := by
  constructor
  · intro f secret override card hsec hord hst hcard hsource
    constructor
    · intro hov
      simp [expectedSign, hsec, hord, hst, hcard, hsource, hov]
    · intro hov
      simp [expectedSign, hsec, hord, hst, hcard, hsource, hov]
  · intro r auth transId ha hs ht htn
    refine ⟨?_, ?_, ?_⟩
    · intro e hhe
      simp [generateTransIDSignature, ha, ht, hs, htn, hhe]
    · intro e hhe hpe
      simp [generateTransIDSignature, ha, ht, hs, htn, hhe, hpe]
    · intro hhe hpe
      simp [generateTransIDSignature, ha, ht, hs, htn, hhe, hpe]

/-- C5 witness: override precedence on the concrete request carrying
both e-mails. -/
theorem C5_witness :
    generateTransIDSignature c5req =
      .ok (goMd5Hex (goToUpper (reverseString "override@example.com" ++
        "secret123" ++ "632508054"))) :=
  (C5_email_priority.2 c5req { Key := "k", Secret := "secret123" } "632508054"
      rfl (by decide) rfl (by decide)).1 "override@example.com" rfl

/-- C6: the split-rule validators implement the claim on realistic
inputs — the 1000-minor-unit scenario normalizes to the two-decimal map
and the 700+400-over-100 scenario fails — but 64-bit wrap-around defeats
the exact-sum guarantee: a single allocation of
`184467440737095517.00` (true value `18446744073709551700` minor units)
wraps to `84` during `major*100`, so it validates successfully against a
total of `0.84` although its true sum is not the total. -/
theorem C6_split_rules :
    getSplitRules 1000 [("A", 250), ("B", 750)] =
        .ok [("A", "2.50"), ("B", "7.50")] ∧
    getSplitRules 100 [("A", 700), ("B", 400)] =
        .error "split rules total exceeds amount" ∧
    validateSplitRules [("A", "184467440737095517.00")] "0.84" "capture" =
        .ok () ∧
    parseOrderAmountMinorUnits "0.84" = .ok 84 ∧
    (184467440737095517 * 100 + 0 : Int) ≠ 84 :=
  ⟨rfl, rfl, rfl, rfl, by decide⟩

/-- Helper: the `verification` arm's only mutation is filling the two
flags with `"Y"` (each kept when already set). -/
theorem vbhtState_verification (r : Request) (h : r.HashType = HashTypeVerification) :
    (validateByHashTypeSt r).2 =
      { r with ReqToken := some (r.ReqToken.getD "Y"),
               RecurringInit := some (r.RecurringInit.getD "Y") } := by
  unfold validateByHashTypeSt
  rw [if_pos h]
  rcases h1 : r.ReqToken with _ | x <;> rcases h2 : r.RecurringInit with _ | y <;>
    simp [h1, h2] <;> rw [← h1, ← h2]

/-- Helper: the `card_payment` arm's only mutation is filling the two
flags with `"N"` (each kept when already set). -/
theorem vbhtState_cardPayment (r : Request) (h : r.HashType = HashTypeCardPayment) :
    (validateByHashTypeSt r).2 =
      { r with ReqToken := some (r.ReqToken.getD "N"),
               RecurringInit := some (r.RecurringInit.getD "N") } := by
  unfold validateByHashTypeSt
  rw [if_neg (by simp [h, HashTypeCardPayment, HashTypeVerification]), if_pos h]
  rcases h1 : r.ReqToken with _ | x <;> rcases h2 : r.RecurringInit with _ | y <;>
    simp [h1, h2] <;> rw [← h1, ← h2]

/-- Helper: every other arm of `validateByHashType` leaves the request
untouched. -/
theorem vbhtState_other (r : Request) (h1 : r.HashType ≠ HashTypeVerification)
    (h2 : r.HashType ≠ HashTypeCardPayment) :
    (validateByHashTypeSt r).2 = r := by
  unfold validateByHashTypeSt
  rw [if_neg h1, if_neg h2]
  simp [apply_ite Prod.snd]

/-- Helper: per-kind validation never changes the cached digest. -/
theorem vbhtState_hash (r : Request) :
    ((validateByHashTypeSt r).2).Hash = r.Hash := by
  by_cases h1 : r.HashType = HashTypeVerification
  · rw [vbhtState_verification r h1]
  · by_cases h2 : r.HashType = HashTypeCardPayment
    · rw [vbhtState_cardPayment r h2]
    · rw [vbhtState_other r h1 h2]

/-- C7 counterexample: on the repository's own invalid-amount input the
call errors, yet the receiver is left mutated — its cached digest field
has been overwritten with the freshly computed signature (and the two
default flags were filled), contradicting "its fields, including the
cached digest, are unchanged by the failed call". -/
theorem C7_counterexample :
    (signAndPrepareSt (fun _ => true) (some c7req)).1 =
        .error "card_payment: order_amount must match the amount pattern" ∧
      ((signAndPrepareSt (fun _ => true) (some c7req)).2.map Request.Hash) =
        some "bcc927a61aee5b183d13f1154e2ea5e2" ∧
      c7req.Hash = "" ∧
      (signAndPrepareSt (fun _ => true) (some c7req)).2 ≠ some c7req :=
  ⟨rfl, rfl, rfl, by decide⟩

/-- C7 (amended): `SignAndPrepare` never returns a result together with
an error, and a signature-precondition failure leaves the request
untouched; but the call is not all-or-nothing in the stated sense — as
soon as signature generation succeeds the digest is cached on the
receiver, and a subsequent per-kind or struct validation failure leaves
that mutation (and any default-flag fills) in place. -/
theorem C7_sign_all_or_nothing :
    (∀ (sv : Request → Bool) (r : Request) (e : String),
      signatureFor r = .error e →
        signAndPrepareSt sv (some r) =
          (.error ("signature generation failed: " ++ e), some r)) ∧
    (∀ (sv : Request → Bool) (r : Request) (s : String),
      signatureFor r = .ok s →
        ∃ r2, (signAndPrepareSt sv (some r)).2 = some r2 ∧ r2.Hash = s) := by
  constructor
  · intro sv r e h
    simp [signAndPrepareSt, h]
  · intro sv r s h
    refine ⟨(validateByHashTypeSt { r with Hash := s }).2, ?_, ?_⟩
    · rcases hv : validateByHashTypeSt { r with Hash := s } with ⟨res, r2⟩
      cases res with
      | error e => simp [signAndPrepareSt, h, hv]
      | ok u =>
        by_cases hsv : sv r2 <;> simp [signAndPrepareSt, h, hv, hsv]
    · exact vbhtState_hash { r with Hash := s }

/-- C7 witness: a missing payer e-mail fails signing and leaves the
request unchanged; the valid-signature request gets its digest cached. -/
theorem C7_witness :
    signAndPrepareSt (fun _ => true) (some { HashType := "card_payment" }) =
      (.error ("signature generation failed: " ++
        "payer_email is required for signature generation"),
       some { HashType := "card_payment" }) ∧
    ∃ r2, (signAndPrepareSt (fun _ => true) (some c7req)).2 = some r2 ∧
      r2.Hash = "bcc927a61aee5b183d13f1154e2ea5e2" :=
  ⟨C7_sign_all_or_nothing.1 (fun _ => true) { HashType := "card_payment" }
      "payer_email is required for signature generation" rfl,
   C7_sign_all_or_nothing.2 (fun _ => true) c7req
      "bcc927a61aee5b183d13f1154e2ea5e2" rfl⟩

/-- C8 counterexample: the verification kind also requires the two flags
to be present, but its validator fills them with the positive value
`"Y"`, not the explicit negative value. -/
theorem C8_counterexample :
    (validateByHashTypeSt c8req).2.ReqToken = some "Y" ∧
      (validateByHashTypeSt c8req).2.RecurringInit = some "Y" ∧
      (some "Y" : Option String) ≠ some "N" :=
  ⟨rfl, rfl, by decide⟩

/-- C8 (amended): per-kind validation auto-fills the token-request and
recurring-init flags only for the two kinds that require their presence
— with the negative value `"N"` for card payments and with the positive
value `"Y"` for verification (whose rules demand `Y`) — and mutates no
other field; for every other kind validation leaves the request
untouched. -/
theorem C8_flag_defaults : ∀ r : Request,
    (r.HashType = HashTypeCardPayment →
      (validateByHashTypeSt r).2 =
        { r with ReqToken := some (r.ReqToken.getD "N"),
                 RecurringInit := some (r.RecurringInit.getD "N") }) ∧
    (r.HashType = HashTypeVerification →
      (validateByHashTypeSt r).2 =
        { r with ReqToken := some (r.ReqToken.getD "Y"),
                 RecurringInit := some (r.RecurringInit.getD "Y") }) ∧
    (r.HashType ≠ HashTypeCardPayment → r.HashType ≠ HashTypeVerification →
      (validateByHashTypeSt r).2 = r) :=
  fun r =>
    ⟨vbhtState_cardPayment r, vbhtState_verification r,
     fun h1 h2 => vbhtState_other r h2 h1⟩

/-- C8 witness: the flag fills at the concrete verification request with
both flags unset. -/
theorem C8_witness :
    (validateByHashTypeSt c8req).2 =
      { c8req with ReqToken := some "Y", RecurringInit := some "Y" } :=
  (C8_flag_defaults c8req).2.1 rfl

/-!
### Decimal-string round-trip lemmas (for C9)
-/

theorem digitsVal_append (xs : List Char) (c : Char) :
    digitsVal (xs ++ [c]) = 10 * digitsVal xs + (c.toNat - 48) := by
  simp [digitsVal, List.foldl_append]

theorem char_digit_toNat (k : Nat) (h : k < 10) :
    (Char.ofNat (48 + k)).toNat = 48 + k := by
  interval_cases k <;> decide

theorem char_digit_isDigit (k : Nat) (h : k < 10) :
    (Char.ofNat (48 + k)).isDigit = true := by
  interval_cases k <;> decide

theorem digitsAuxFuel_val :
    ∀ fuel n, n ≤ fuel → digitsVal (digitsAuxFuel fuel n) = n := by
  intro fuel
  induction fuel with
  | zero =>
    intro n h
    have : n = 0 := by omega
    subst this
    rfl
  | succ f ih =>
    intro n h
    by_cases h0 : n = 0
    · subst h0
      simp [digitsAuxFuel, digitsVal]
    · have hdiv : n / 10 ≤ f := by
        have := Nat.div_lt_self (Nat.pos_of_ne_zero h0) (by norm_num : 1 < 10)
        omega
      simp only [digitsAuxFuel, if_neg h0]
      rw [digitsVal_append, ih (n / 10) hdiv,
        char_digit_toNat (n % 10) (Nat.mod_lt _ (by norm_num))]
      omega

theorem digitsAuxFuel_digits :
    ∀ fuel n, (digitsAuxFuel fuel n).all Char.isDigit = true := by
  intro fuel
  induction fuel with
  | zero => intro n; rfl
  | succ f ih =>
    intro n
    by_cases h0 : n = 0
    · subst h0; rfl
    · simp only [digitsAuxFuel, if_neg h0, List.all_append, ih (n / 10),
        Bool.true_and]
      simp [char_digit_isDigit (n % 10) (Nat.mod_lt _ (by norm_num))]

theorem natToString_data_val (n : Nat) : digitsVal (natToString n).data = n := by
  by_cases h0 : n = 0
  · subst h0; rfl
  · simp only [natToString, if_neg h0]
    exact digitsAuxFuel_val n n le_rfl

theorem natToString_data_digits (n : Nat) :
    (natToString n).data.all Char.isDigit = true := by
  by_cases h0 : n = 0
  · subst h0; rfl
  · simp only [natToString, if_neg h0]
    exact digitsAuxFuel_digits n n

theorem natToString_data_ne_nil (n : Nat) : (natToString n).data ≠ [] := by
  by_cases h0 : n = 0
  · subst h0; decide
  · simp only [natToString, if_neg h0]
    obtain ⟨f, rfl⟩ : ∃ f, n = f + 1 := ⟨n - 1, by omega⟩
    simp [digitsAuxFuel]

theorem goAtoi_digits (l : List Char) (hne : l ≠ [])
    (hd : l.all Char.isDigit = true)
    (hle : (digitsVal l : Int) ≤ 9223372036854775807) :
    goAtoi ⟨l⟩ = .ok (digitsVal l) := by
  obtain ⟨c, cs, rfl⟩ := List.exists_cons_of_ne_nil hne
  have hc : c.isDigit = true := by
    have := hd
    simp [List.all_cons] at this
    exact this.1
  have hcp : c ≠ '+' := by
    intro h
    subst h
    exact absurd hc (by decide)
  have hcm : c ≠ '-' := by
    intro h
    subst h
    exact absurd hc (by decide)
  have hrange : ¬ ((digitsVal (c :: cs) : Int) < -9223372036854775808 ∨
      9223372036854775807 < (digitsVal (c :: cs) : Int)) := by
    push_neg
    constructor
    · have : (0 : Int) ≤ (digitsVal (c :: cs) : Int) := Int.ofNat_nonneg _
      omega
    · exact hle
  simp only [goAtoi, hrange]
  simp [hcp, hcm, hd]
  constructor
  · have h0 : (0 : Int) ≤ (digitsVal (c :: cs) : Int) := Int.ofNat_nonneg _
    omega
  · exact_mod_cast hle

theorem takeWhile_append_cons (p : Char → Bool) (xs : List Char) (y : Char)
    (ys : List Char) (hxs : ∀ x ∈ xs, p x = true) (hy : p y = false) :
    ((xs ++ y :: ys).takeWhile p) = xs := by
  induction xs with
  | nil => simp [List.takeWhile_cons, hy]
  | cons a as ih =>
    have ha : p a = true := hxs a (List.mem_cons_self a as)
    simp [List.takeWhile_cons, ha,
      ih fun x hx => hxs x (List.mem_cons_of_mem a hx)]

theorem splitN2Dot_append (s t : String) (hs : ∀ c ∈ s.data, c ≠ '.') :
    splitN2Dot (s ++ "." ++ t) = (s, some t) := by
  have hdata : (s ++ "." ++ t).data = s.data ++ '.' :: t.data := by
    simp [String.data_append]
  have htw : ((s.data ++ '.' :: t.data).takeWhile fun c => decide (c ≠ '.')) =
      s.data :=
    takeWhile_append_cons _ _ _ _
      (fun x hx => by simp [hs x hx]) (by simp)
  unfold splitN2Dot
  rw [hdata]
  simp only [htw]
  rw [if_neg (by simp)]
  have hdrop : (s.data ++ '.' :: t.data).drop (s.data.length + 1) = t.data := by
    have : s.data ++ '.' :: t.data = (s.data ++ ['.']) ++ t.data := by simp
    rw [this, show s.data.length + 1 = (s.data ++ ['.']).length by simp]
    exact List.drop_left _ _
  rw [hdrop]

theorem pad2_data_val (k : Nat) : digitsVal (pad2 k).data = k := by
  by_cases h : k < 10
  · simp only [pad2, if_pos h]
    have : ("0" ++ natToString k).data = '0' :: (natToString k).data := by
      simp [String.data_append]
    rw [this]
    show digitsVal ('0' :: (natToString k).data) = k
    have : digitsVal ('0' :: (natToString k).data) =
        digitsVal ((natToString k).data) := by
      simp [digitsVal]
    rw [this, natToString_data_val]
  · simp only [pad2, if_neg h]
    exact natToString_data_val k

theorem pad2_data_digits (k : Nat) : (pad2 k).data.all Char.isDigit = true := by
  by_cases h : k < 10
  · simp only [pad2, if_pos h]
    have : ("0" ++ natToString k).data = '0' :: (natToString k).data := by
      simp [String.data_append]
    rw [this]
    simp [List.all_cons, natToString_data_digits]
  · simp only [pad2, if_neg h]
    exact natToString_data_digits k

theorem pad2_data_ne_nil (k : Nat) : (pad2 k).data ≠ [] := by
  by_cases h : k < 10
  · simp only [pad2, if_pos h]
    have : ("0" ++ natToString k).data = '0' :: (natToString k).data := by
      simp [String.data_append]
    rw [this]
    simp
  · simp only [pad2, if_neg h]
    exact natToString_data_ne_nil k

theorem isDigit_ne_dot (c : Char) (h : c.isDigit = true) : c ≠ '.' := by
  intro he
  subst he
  exact absurd h (by decide)

theorem wrap64_id (n : Int) (h1 : -9223372036854775808 ≤ n)
    (h2 : n < 9223372036854775808) : wrap64 n = n := by
  unfold wrap64
  omega

theorem exactFormatMinor_roundtrip :
    ∀ a : Nat, a < 9223372036854775808 →
      parseOrderAmountMinorUnits (exactFormatMinor a) = .ok (a : Int) := by
  intro a ha
  have hmd : ∀ c ∈ (natToString (a / 100)).data, c ≠ '.' := fun c hc =>
    isDigit_ne_dot c (by
      have := natToString_data_digits (a / 100)
      rw [List.all_eq_true] at this
      exact this c hc)
  have hsplit : splitN2Dot (exactFormatMinor a) =
      (natToString (a / 100), some (pad2 (a % 100))) :=
    splitN2Dot_append _ _ hmd
  have hmajv : (digitsVal (natToString (a / 100)).data : Int) ≤
      9223372036854775807 := by
    rw [natToString_data_val]
    have : a / 100 ≤ a := Nat.div_le_self a 100
    omega
  have hmaj : goAtoi (natToString (a / 100)) = .ok (digitsVal (natToString (a / 100)).data) := by
    have := goAtoi_digits (natToString (a / 100)).data
      (natToString_data_ne_nil _) (natToString_data_digits _) hmajv
    exact this
  have hminv : (digitsVal (pad2 (a % 100)).data : Int) ≤ 9223372036854775807 := by
    rw [pad2_data_val]
    have : a % 100 < 100 := Nat.mod_lt _ (by norm_num)
    omega
  have hmin : goAtoi (pad2 (a % 100)) = .ok (digitsVal (pad2 (a % 100)).data) := by
    have := goAtoi_digits (pad2 (a % 100)).data
      (pad2_data_ne_nil _) (pad2_data_digits _) hminv
    exact this
  rw [natToString_data_val] at hmaj
  rw [pad2_data_val] at hmin
  simp only [parseOrderAmountMinorUnits, hsplit, hmaj, hmin]
  have hw1 : wrap64 ((a / 100 : Nat) * 100 : Int) = ((a / 100 : Nat) * 100 : Int) := by
    apply wrap64_id
    · have : (0 : Int) ≤ ((a / 100 : Nat) : Int) := Int.ofNat_nonneg _
      omega
    · have hle : (a / 100 : Nat) * 100 ≤ a := by
        have := Nat.div_mul_le_self a 100
        omega
      have : ((a / 100 : Nat) * 100 : Int) ≤ (a : Int) := by exact_mod_cast hle
      omega
  rw [show ((a / 100 : Nat) : Int) * 100 = ((a / 100 : Nat) * 100 : Int) by push_cast; ring, hw1]
  have hsum : ((a / 100 : Nat) * 100 : Int) + ((a % 100 : Nat) : Int) = (a : Int) := by
    push_cast
    omega
  rw [hsum, wrap64_id (a : Int)
    (by have : (0 : Int) ≤ (a : Int) := Int.ofNat_nonneg _; omega)
    (by exact_mod_cast ha)]


/-- C9 counterexample: the code formats through `float64`, which cannot
distinguish `2^53 + 1` from `2^53`; the minor-unit amount
`9007199254740993` formats to the same wire string as `9007199254740992`
and re-parses as the latter, so formatting then re-parsing does not
return `a` for all `a ≥ 0`. -/
theorem C9_counterexample :
    parseOrderAmountMinorUnits (goFormatMinor 9007199254740993) =
        .ok 9007199254740992 ∧
      (9007199254740992 : Int) ≠ 9007199254740993 ∧
      goFormatMinor 9007199254740993 = goFormatMinor 9007199254740992 :=
  ⟨rfl, by decide, rfl⟩

/-- C9 (amended): re-parsing the exact two-decimal rendering of a
minor-unit amount via `major*100 + minor` returns the amount exactly for
every amount in the Go `int` range; the code's `float64`-based formatting
produces that exact rendering on ordinary amounts (sampled here) but
collapses distinct amounts from `2^53` on. -/
theorem C9_minor_units_roundtrip :
    (∀ a : Nat, a < 9223372036854775808 →
      parseOrderAmountMinorUnits (exactFormatMinor a) = .ok (a : Int)) ∧
    goFormatMinor 100 = exactFormatMinor 100 ∧
    goFormatMinor 1000 = exactFormatMinor 1000 ∧
    goFormatMinor 9007199254740993 ≠ exactFormatMinor 9007199254740993 :=
  ⟨exactFormatMinor_roundtrip, rfl, rfl, by decide⟩

/-- C9 witness: the round trip at the concrete amount `12345`. -/
theorem C9_witness :
    parseOrderAmountMinorUnits (exactFormatMinor 12345) = .ok (12345 : Int) :=
  C9_minor_units_roundtrip.1 12345 (by decide)

/-- C10: every embedded request operation is total on a nil receiver:
builders return nil, `SignAndPrepare` errors with no result, `ToMap`
yields the empty map, and the webhook operations error. -/
theorem C10_nil_receiver :
    (∀ a, withAuth none a = none) ∧
    (∀ k, withClientKey none k = none) ∧
    (∀ b, withReqToken none b = none) ∧
    withRecToken none = none ∧
    (∀ b, withRecurringInitFlag none b = none) ∧
    withRecurringInit none = none ∧
    (∀ b, withAsync none b = none) ∧
    useAsync none = none ∧
    withChannelNoAmountVerification none = none ∧
    (∀ v, withPayerIP none v = none) ∧
    (∀ v, withTermsURL none v = none) ∧
    (∀ v, withCardNumber none v = none) ∧
    (∀ v, withCardToken none v = none) ∧
    (∀ v, withCardExpMonth none v = none) ∧
    (∀ v, withCardExpYear none v = none) ∧
    (∀ v, withCardCvv2 none v = none) ∧
    (∀ v, withPayerEmail none v = none) ∧
    (∀ v, withPayerPhone none v = none) ∧
    (∀ v, withPayerFirstName none v = none) ∧
    (∀ v, withPayerLastName none v = none) ∧
    (∀ v, withApplePayData none v = none) ∧
    (∀ v, withGooglePayToken none v = none) ∧
    (∀ v, withPaymentToken none v = none) ∧
    withHoldAuth none = none ∧
    (∀ a, withVerifyAmount none a = none) ∧
    (∀ a, withOrderAmountMinorUnits none a = none) ∧
    (∀ a, withOrderAmount none a = none) ∧
    (∀ c, forCurrency none c = none) ∧
    (∀ v, withSubmerchantID none v = none) ∧
    (∀ d, withDescription none d = none) ∧
    (∀ v, withOrderID none v = none) ∧
    (∀ v, withRecurringFirstTransID none v = none) ∧
    (∀ v, withTransID none v = none) ∧
    (∀ a, withAmountMinorUnits none a = none) ∧
    (∀ a, withAmount none a = none) ∧
    (∀ sr, withSplitRules none sr = none) ∧
    (∀ b, withImmediately none b = none) ∧
    (∀ v, withHashEmail none v = none) ∧
    (∀ v, withCardHashPart none v = none) ∧
    (∀ v, withExt3 none v = none) ∧
    (∀ t, signForAction none t = none) ∧
    (∀ sv, signAndPrepareSt sv none = (.error "request is nil", none)) ∧
    toMap none = [] ∧
    (∀ s o, expectedSign none s o = .error "webhook form is nil") ∧
    (∀ s o, verifySign none s o = .error "webhook form is nil") := by
  refine ⟨fun _ => rfl, fun _ => rfl, fun _ => rfl, rfl, fun _ => rfl, rfl,
    fun _ => rfl, rfl, rfl, fun _ => rfl, fun _ => rfl, fun _ => rfl,
    fun _ => rfl, fun _ => rfl, fun _ => rfl, fun _ => rfl, fun _ => rfl,
    fun _ => rfl, fun _ => rfl, fun _ => rfl, fun _ => rfl, fun _ => rfl,
    fun _ => rfl, rfl, fun _ => rfl, fun _ => rfl, fun _ => rfl, fun _ => rfl,
    fun _ => rfl, fun _ => rfl, fun _ => rfl, fun _ => rfl, fun _ => rfl,
    fun _ => rfl, fun _ => rfl, fun _ => rfl, fun _ => rfl, fun _ => rfl,
    fun _ => rfl, fun _ => rfl, fun _ => rfl, fun _ => rfl, rfl,
    fun _ _ => rfl, fun _ _ => rfl⟩

/-- C10 witness: a nil-receiver builder chain stays nil and nil signing
errors, at concrete arguments. -/
theorem C10_witness :
    withTransID (withAuth none (some { Key := "k", Secret := "s" }))
        (some "632508054") = none ∧
      signAndPrepareSt (fun _ => true) none = (.error "request is nil", none) :=
  ⟨by rw [C10_nil_receiver.1 (some { Key := "k", Secret := "s" })]
      exact (C10_nil_receiver.2.2.2.2.2.2.2.2.2.2.2.2.2.2.2.2.2.2.2.2.2.2.2.2.2.2.2.2.2.2.2.2.1) (some "632508054"),
   (C10_nil_receiver.2.2.2.2.2.2.2.2.2.2.2.2.2.2.2.2.2.2.2.2.2.2.2.2.2.2.2.2.2.2.2.2.2.2.2.2.2.2.2.2.2.1) (fun _ => true)⟩
